import Mathlib

/-!
Verification development for the SkullStepperV4 stepper-control firmware.

The definitions below are a shallow embedding of the motion/homing core in
`src/StepperController.cpp` (together with the command queue created in
`src/GlobalInfrastructure.cpp` and the data model of `src/GlobalInterface.h`).

Modelling conventions:
* machine integers (`int32_t`) are `Int`; the one place where signed overflow
  can matter (the relative-move target addition) wraps explicitly via `wrap32`;
* `float` fields carry no arithmetic relevant to the claims except the home
  reference-position percentage, and are modelled as `Rat`;
* the axis driver (ODStepper/FastAccelStepper) is external to the repository
  and is modelled as the list of calls issued to it (`DriverCall`), plus an
  idealized simulated axis (`AxisState`) that executes one step per 2 ms
  control tick for whole-system runs;
* `millis()` timestamps are `Nat` milliseconds.
-/

set_option maxRecDepth 10000

namespace SkullStepper

/-- Debounce interval for the limit switches, ms (`HardwareConfig.h`). -/
def LIMIT_SWITCH_DEBOUNCE : Nat := 100

/-- Steps backed off from a limit switch during homing (`StepperController.cpp`). -/
def BACKOFF_STEPS : Int := 50

/-- Safety margin kept away from the physical limits (`StepperController.cpp`). -/
def POSITION_MARGIN : Int := 10

/-- Overall homing timeout, ms (`StepperController.cpp`). -/
def HOMING_TIMEOUT_MS : Nat := 90000

/-- Delay before the auto-home after an E-stop fires, ms (`StepperController.cpp`). -/
def AUTO_HOME_DELAY_MS : Nat := 2000

/-- Compile-time default position bounds (`HardwareConfig.h`): `MIN_POSITION_STEPS`. -/
def MIN_POSITION_STEPS : Int := 0

/-- Compile-time default position bounds (`HardwareConfig.h`): `MAX_POSITION_STEPS`. -/
def MAX_POSITION_STEPS : Int := 6400

/-- Arduino `constrain(amt, low, high)` macro: `amt<low ? low : (amt>high ? high : amt)`. -/
def constrain (amt low high : Int) : Int :=
  if amt < low then low else if amt > high then high else amt

/-- Two's-complement wrap of an `Int` into the `int32_t` range. -/
def wrap32 (x : Int) : Int := (x + 2 ^ 31) % 2 ^ 32 - 2 ^ 31

/-- Truncation of a rational toward zero, as a C `(int32_t)` cast of a float. -/
def ratTruncToInt (q : Rat) : Int := Int.tdiv q.num (Int.ofNat q.den)

/-- Command kinds of `MotionCommand` (`GlobalInterface.h`). -/
inductive CommandType
  | MOVE_ABSOLUTE
  | MOVE_RELATIVE
  | SET_SPEED
  | SET_ACCELERATION
  | HOME
  | STOP
  | EMERGENCY_STOP
  | ENABLE
  | DISABLE
  deriving DecidableEq, Repr

/-- Motion profile (`GlobalInterface.h`); the `float` members are rationals here. -/
structure MotionProfile where
  maxSpeed : Rat
  acceleration : Rat
  deceleration : Rat
  jerk : Rat
  targetPosition : Int
  enableLimits : Bool
  deriving DecidableEq, Repr

/-- A queued motion command (`GlobalInterface.h`). -/
structure MotionCommand where
  type : CommandType
  profile : MotionProfile
  timestamp : Nat
  commandId : Nat
  deriving DecidableEq, Repr

/-- Motion state enumeration (`GlobalInterface.h`). -/
inductive MotionState
  | IDLE
  | ACCELERATING
  | CONSTANT_VELOCITY
  | DECELERATING
  | HOMING
  | POSITION_HOLD
  deriving DecidableEq, Repr

/-- Safety state enumeration (`GlobalInterface.h`). -/
inductive SafetyState
  | NORMAL
  | LEFT_LIMIT_ACTIVE
  | RIGHT_LIMIT_ACTIVE
  | BOTH_LIMITS_ACTIVE
  | STEPPER_ALARM
  | EMERGENCY_STOP
  | POSITION_ERROR
  deriving DecidableEq, Repr

/-- Homing state machine states (`StepperController.cpp`). -/
inductive HomingState
  | IDLE
  | FINDING_LEFT
  | BACKING_OFF_LEFT
  | FINDING_RIGHT
  | BACKING_OFF_RIGHT
  | MOVING_TO_CENTER
  | COMPLETE
  | ERROR
  deriving DecidableEq, Repr

/-- The slice of `SystemConfig` read or written by the stepper controller. -/
structure SystemConfig where
  minPosition : Int
  maxPosition : Int
  homingSpeed : Rat
  homePositionPercent : Rat
  autoHomeOnEstop : Bool
  defaultProfile : MotionProfile
  deriving DecidableEq, Repr

/-- Calls made to the external axis driver (ODStepper/FastAccelStepper). -/
inductive DriverCall
  | moveTo (pos : Int)
  | move (steps : Int)
  | setSpeedInHz (hz : Rat)
  | setAcceleration (accel : Rat)
  | setCurrentPositionZero
  | forceStop
  | stopMove
  | enableOutputs
  | disableOutputs
  deriving DecidableEq, Repr

/-- The module-level mutable state of `StepperController.cpp` (the `g_` variables
visible to `processMotionCommand` and the homing machine), plus the live copy of
the system configuration (`SystemConfigMgr::getConfig()`, `none` when absent). -/
structure CtrlState where
  currentPosition : Int
  minPosition : Int
  maxPosition : Int
  positionLimitsValid : Bool
  systemHomed : Bool
  motionState : MotionState
  stepperEnabled : Bool
  limitFaultActive : Bool
  currentProfile : MotionProfile
  homingState : HomingState
  homingProgress : Nat
  detectedRightLimit : Int
  homingSpeed : Rat
  homingStartTime : Nat
  homingPhaseStartTime : Nat
  safetyState : SafetyState
  leftLimitState : Bool
  rightLimitState : Bool
  autoHomeRequested : Bool
  autoHomeRequestTime : Nat
  config : Option SystemConfig
  deriving DecidableEq, Repr

/-- Result of a `processMotionCommand` call: the updated controller state, the
returned `bool`, and the calls issued to the axis driver (in order). -/
structure CmdResult where
  state : CtrlState
  success : Bool
  calls : List DriverCall
  deriving DecidableEq, Repr

/-- Execution environment of one `processMotionCommand` call: whether the module
is initialized (with a live stepper), whether the 10 ms mutex take succeeded,
and the current `millis()` value. -/
structure CallEnv where
  initialized : Bool
  mutexAcquired : Bool
  now : Nat
  deriving DecidableEq, Repr

/-- Port of `startHomingSequence` (`StepperController.cpp`): reset the homing
machine, reload the homing speed from configuration, handle the three initial
limit-switch situations. Called with the mutex already held. -/
def startHomingSequence (now : Nat) (s : CtrlState) : CtrlState × List DriverCall :=
  let hs := match s.config with
    | some config => config.homingSpeed
    | none => s.homingSpeed
  let s1 := { s with
    homingState := HomingState.FINDING_LEFT
    homingProgress := 0
    systemHomed := false
    positionLimitsValid := false
    homingStartTime := now
    homingPhaseStartTime := now
    homingSpeed := hs }
  let pre : List DriverCall :=
    [DriverCall.setSpeedInHz hs, DriverCall.setAcceleration s1.currentProfile.acceleration]
  if s1.leftLimitState = true ∧ s1.rightLimitState = true then
    ({ s1 with homingState := HomingState.ERROR, motionState := MotionState.IDLE }, pre)
  else if s1.leftLimitState = true then
    ({ s1 with homingState := HomingState.BACKING_OFF_LEFT, motionState := MotionState.HOMING },
      pre ++ [DriverCall.move (BACKOFF_STEPS * 2)])
  else
    ({ s1 with motionState := MotionState.HOMING },
      pre ++ [DriverCall.moveTo (-100000)])

/-- Port of `processMotionCommand` (`StepperController.cpp`): admission guards
(limit fault, not homed, limits invalid for the two move commands; limit fault
for the speed/acceleration setters) followed by per-command execution. -/
def processMotionCommand (env : CallEnv) (s : CtrlState) (cmd : MotionCommand) : CmdResult :=
  if env.initialized = false then ⟨s, false, []⟩
  else if env.mutexAcquired = false then ⟨s, false, []⟩
  else
    let isMotionCommand :=
      cmd.type = CommandType.MOVE_ABSOLUTE ∨ cmd.type = CommandType.MOVE_RELATIVE
    if isMotionCommand ∧ s.limitFaultActive = true then
      ⟨{ s with safetyState := SafetyState.POSITION_ERROR }, false, []⟩
    else if isMotionCommand ∧ s.systemHomed = false then
      ⟨{ s with safetyState := SafetyState.POSITION_ERROR }, false, []⟩
    else if isMotionCommand ∧ s.positionLimitsValid = false then
      ⟨{ s with safetyState := SafetyState.POSITION_ERROR }, false, []⟩
    else if s.limitFaultActive = true ∧
        (cmd.type = CommandType.SET_SPEED ∨ cmd.type = CommandType.SET_ACCELERATION) then
      ⟨{ s with safetyState := SafetyState.POSITION_ERROR }, false, []⟩
    else
      match cmd.type with
      | CommandType.MOVE_ABSOLUTE =>
        if s.positionLimitsValid = true ∧ cmd.profile.enableLimits = true then
          match s.config with
          | some config =>
            let userMinPos := constrain config.minPosition s.minPosition s.maxPosition
            let userMaxPos := constrain config.maxPosition s.minPosition s.maxPosition
            let targetPos := constrain cmd.profile.targetPosition userMinPos userMaxPos
            ⟨s, true, [DriverCall.moveTo targetPos]⟩
          | none =>
            let targetPos := constrain cmd.profile.targetPosition s.minPosition s.maxPosition
            ⟨s, true, [DriverCall.moveTo targetPos]⟩
        else
          ⟨s, true, [DriverCall.moveTo cmd.profile.targetPosition]⟩
      | CommandType.MOVE_RELATIVE =>
        let baseTarget := wrap32 (s.currentPosition + cmd.profile.targetPosition)
        if s.positionLimitsValid = true ∧ cmd.profile.enableLimits = true then
          match s.config with
          | some config =>
            let userMinPos := constrain config.minPosition s.minPosition s.maxPosition
            let userMaxPos := constrain config.maxPosition s.minPosition s.maxPosition
            let targetPos := constrain baseTarget userMinPos userMaxPos
            ⟨s, true, [DriverCall.moveTo targetPos]⟩
          | none =>
            let targetPos := constrain baseTarget s.minPosition s.maxPosition
            ⟨s, true, [DriverCall.moveTo targetPos]⟩
        else
          ⟨s, true, [DriverCall.moveTo baseTarget]⟩
      | CommandType.SET_SPEED =>
        ⟨{ s with currentProfile := { s.currentProfile with maxSpeed := cmd.profile.maxSpeed } },
          true, [DriverCall.setSpeedInHz cmd.profile.maxSpeed]⟩
      | CommandType.SET_ACCELERATION =>
        ⟨{ s with currentProfile := { s.currentProfile with
            acceleration := cmd.profile.acceleration
            deceleration := cmd.profile.acceleration } },
          true, [DriverCall.setAcceleration cmd.profile.acceleration]⟩
      | CommandType.HOME =>
        if s.homingState = HomingState.IDLE ∨ s.homingState = HomingState.COMPLETE ∨
            s.homingState = HomingState.ERROR then
          let r := startHomingSequence env.now s
          ⟨r.1, true, r.2⟩
        else
          ⟨s, false, []⟩
      | CommandType.STOP =>
        ⟨s, true, [DriverCall.stopMove]⟩
      | CommandType.EMERGENCY_STOP =>
        ⟨{ s with motionState := MotionState.IDLE, safetyState := SafetyState.EMERGENCY_STOP },
          true, [DriverCall.forceStop]⟩
      | CommandType.ENABLE =>
        ⟨{ s with stepperEnabled := true }, true, [DriverCall.enableOutputs]⟩
      | CommandType.DISABLE =>
        ⟨{ s with stepperEnabled := false }, true, [DriverCall.disableOutputs]⟩

/-- Debounce state of one limit switch: the confirmed state `g_*LimitState`, the
debounce timer start `g_*LimitDebounceStart` (`0` meaning idle), the ISR flag
`g_*LimitTriggered`, and the cached raw reading `g_last*PinReading`. -/
structure LimitMon where
  state : Bool
  debounceStart : Nat
  triggered : Bool
  lastPin : Bool
  deriving DecidableEq, Repr

/-- Debounce core of `processLeftLimit`/`processRightLimit`: confirm a change
only after the reading has sat on the other side for the debounce interval;
a reading matching the confirmed state resets the timer and the ISR flag.
Returns the new monitor state and whether a transition was confirmed. -/
def processLimit (m : LimitMon) (currentReading : Bool) (currentTime : Nat) : LimitMon × Bool :=
  if currentReading ≠ m.state then
    if m.debounceStart = 0 then
      ({ m with debounceStart := currentTime }, false)
    else if currentTime - m.debounceStart ≥ LIMIT_SWITCH_DEBOUNCE then
      ({ m with state := currentReading, debounceStart := 0, triggered := false }, true)
    else
      (m, false)
  else
    ({ m with debounceStart := 0, triggered := false }, false)

/-- One control-cycle visit of `checkLimitSwitches` to a single switch: the edge
interrupt sets the triggered flag whenever the sampled pin differs from the
cached reading, and `processLimit` runs when the pin changed or the flag is
pending; the cached reading is refreshed after processing. -/
def monTick (m : LimitMon) (pinReading : Bool) (now : Nat) : LimitMon × Bool :=
  let m1 := if pinReading ≠ m.lastPin then { m with triggered := true } else m
  if pinReading ≠ m1.lastPin ∨ m1.triggered = true then
    let r := processLimit m1 pinReading now
    ({ r.1 with lastPin := pinReading }, r.2)
  else
    (m1, false)

/-- Simulated axis: physical position, physical target, and the offset of the
driver's logical zero (so `getCurrentPosition` is `pos - offset`). The driver's
step generation is external to the repository; the simulation advances one step
toward the target per 2 ms control tick. -/
structure AxisState where
  pos : Int
  target : Int
  offset : Int
  deriving DecidableEq, Repr

/-- The driver reports running while the commanded target is not reached. -/
def AxisState.isRunning (a : AxisState) : Bool := decide (a.pos ≠ a.target)

/-- Driver logical position (`getCurrentPosition`). -/
def AxisState.getCurrentPosition (a : AxisState) : Int := a.pos - a.offset

/-- Hard stop: the target collapses to the present position. -/
def AxisState.forceStop (a : AxisState) : AxisState := { a with target := a.pos }

/-- Absolute move in driver logical coordinates. -/
def AxisState.moveTo (a : AxisState) (p : Int) : AxisState := { a with target := a.offset + p }

/-- Relative move from the present position. -/
def AxisState.move (a : AxisState) (d : Int) : AxisState := { a with target := a.pos + d }

/-- The homing sequence re-bases the driver's logical zero at the present spot. -/
def AxisState.setCurrentPositionZero (a : AxisState) : AxisState := { a with offset := a.pos }

/-- Axis motion between two control ticks: one step toward the target. -/
def AxisState.step (a : AxisState) : AxisState :=
  if a.pos < a.target then { a with pos := a.pos + 1 }
  else if a.pos > a.target then { a with pos := a.pos - 1 }
  else a

/-- Interpretation of a driver call on the simulated axis; speed, acceleration
and output-enable calls do not move the simulated axis. The ramped `stopMove`
halts the ideal axis at once, like `forceStop` (the simulation has no ramps). -/
def AxisState.applyCall (a : AxisState) : DriverCall → AxisState
  | DriverCall.moveTo p => a.moveTo p
  | DriverCall.move d => a.move d
  | DriverCall.forceStop => a.forceStop
  | DriverCall.stopMove => a.forceStop
  | DriverCall.setCurrentPositionZero => a.setCurrentPositionZero
  | _ => a

/-- Apply a call list left to right. -/
def AxisState.applyCalls (a : AxisState) (cs : List DriverCall) : AxisState :=
  cs.foldl AxisState.applyCall a

/-- Whole-system state for closed-loop runs: controller globals, simulated axis,
the two debounce monitors, and the `millis()` clock. -/
structure SysState where
  ctrl : CtrlState
  axis : AxisState
  leftMon : LimitMon
  rightMon : LimitMon
  time : Nat
  deriving DecidableEq, Repr

/-- Port of `updateHomingSequence` (`StepperController.cpp`): overall timeout
check, then the homing state machine. The mutex take is modelled as succeeding.
The `float` home-percentage arithmetic is rational, truncated toward zero as
the `int32_t` cast does. -/
def updateHomingSequence (now : Nat) (s : SysState) : SysState :=
  let s :=
    if now - s.ctrl.homingStartTime > HOMING_TIMEOUT_MS then
      { s with ctrl := { s.ctrl with homingState := HomingState.ERROR },
               axis := s.axis.forceStop }
    else s
  match s.ctrl.homingState with
  | HomingState.FINDING_LEFT =>
    let c := { s.ctrl with homingProgress := 10 }
    if c.leftLimitState = true then
      let c2 := { c with
        homingState := HomingState.BACKING_OFF_LEFT
        homingPhaseStartTime := now }
      { s with ctrl := c2, axis := s.axis.forceStop }
    else if s.axis.isRunning = false then
      { s with ctrl := { c with homingState := HomingState.ERROR } }
    else
      { s with ctrl := c }
  | HomingState.BACKING_OFF_LEFT =>
    let c := { s.ctrl with homingProgress := 25 }
    if s.axis.isRunning = false then
      { s with ctrl := c, axis := s.axis.move BACKOFF_STEPS }
    else if s.axis.isRunning = true ∧ c.leftLimitState = false then
      let a := s.axis.setCurrentPositionZero
      let c2 := { c with
        currentPosition := 0
        minPosition := POSITION_MARGIN
        homingState := HomingState.FINDING_RIGHT
        homingPhaseStartTime := now }
      { s with ctrl := c2, axis := a.moveTo 100000 }
    else
      { s with ctrl := c }
  | HomingState.FINDING_RIGHT =>
    let c := { s.ctrl with homingProgress := 50 }
    if c.rightLimitState = true then
      let c2 := { c with
        detectedRightLimit := s.axis.getCurrentPosition
        homingState := HomingState.BACKING_OFF_RIGHT
        homingPhaseStartTime := now }
      { s with ctrl := c2, axis := s.axis.forceStop }
    else if s.axis.isRunning = false then
      { s with ctrl := { c with homingState := HomingState.ERROR } }
    else if now - c.homingPhaseStartTime > HOMING_TIMEOUT_MS then
      let c2 := { c with homingState := HomingState.ERROR }
      { s with ctrl := c2, axis := s.axis.forceStop }
    else
      { s with ctrl := c }
  | HomingState.BACKING_OFF_RIGHT =>
    let c := { s.ctrl with homingProgress := 75 }
    if s.axis.isRunning = false then
      { s with ctrl := c, axis := s.axis.move (-BACKOFF_STEPS) }
    else if s.axis.isRunning = true ∧ c.rightLimitState = false then
      let maxP := s.axis.getCurrentPosition - POSITION_MARGIN
      let c := { c with maxPosition := maxP, positionLimitsValid := true }
      match c.config with
      | some config =>
        let cfgMin :=
          if config.minPosition < c.minPosition ∨ config.minPosition ≥ c.maxPosition then
            c.minPosition else config.minPosition
        let cfgMax :=
          if config.maxPosition > c.maxPosition ∨ config.maxPosition ≤ c.minPosition then
            c.maxPosition else config.maxPosition
        let config2 := { config with minPosition := cfgMin, maxPosition := cfgMax }
        let range := c.maxPosition - c.minPosition
        let homePosition :=
          c.minPosition + ratTruncToInt (Rat.ofInt range * config2.homePositionPercent / 100)
        let c2 := { c with
          config := some config2
          homingState := HomingState.MOVING_TO_CENTER }
        { s with ctrl := c2, axis := s.axis.moveTo homePosition }
      | none =>
        let homePosition := Int.tdiv (c.minPosition + c.maxPosition) 2
        let c2 := { c with homingState := HomingState.MOVING_TO_CENTER }
        { s with ctrl := c2, axis := s.axis.moveTo homePosition }
    else
      { s with ctrl := c }
  | HomingState.MOVING_TO_CENTER =>
    let c := { s.ctrl with homingProgress := 90 }
    if s.axis.isRunning = false then
      let c2 := { c with
        homingState := HomingState.COMPLETE
        homingProgress := 100
        systemHomed := true
        motionState := MotionState.IDLE
        limitFaultActive := false
        safetyState := SafetyState.NORMAL }
      { s with ctrl := c2 }
    else
      { s with ctrl := c }
  | HomingState.ERROR =>
    let c2 := { s.ctrl with
      homingProgress := 0
      motionState := MotionState.IDLE
      safetyState := SafetyState.POSITION_ERROR }
    { s with ctrl := c2 }
  | _ => s

/-- Side effects of a confirmed limit activation (the body of
`processLeftLimit`/`processRightLimit` behind the debounce): outside the
corresponding Finding state, a running axis is hard-stopped, the motion state
goes idle, the safety state goes to emergency, the fault is latched, and - when
configured - the auto-home request is armed. `expectedState` is the Finding
state in which the edge is expected and therefore not treated as a fault. -/
def limitActivationEffects (expectedState : HomingState) (now : Nat) (s : SysState) : SysState :=
  if s.ctrl.homingState ≠ expectedState then
    if s.axis.isRunning = true then
      let c := { s.ctrl with
        motionState := MotionState.IDLE
        safetyState := SafetyState.EMERGENCY_STOP
        limitFaultActive := true }
      let c :=
        match c.config with
        | some config =>
          if config.autoHomeOnEstop = true then
            { c with autoHomeRequested := true, autoHomeRequestTime := now }
          else c
        | none => c
      { s with ctrl := c, axis := s.axis.forceStop }
    else s
  else s

/-- The left-switch half of `checkLimitSwitches`: run the debounce monitor on
the sampled pin, mirror the confirmed state into `g_leftLimitState`, and apply
the activation side effects when an activation was confirmed. -/
def leftSwitchStep (pin : Bool) (now : Nat) (s : SysState) : SysState :=
  let r := monTick s.leftMon pin now
  let s2 := { s with leftMon := r.1, ctrl := { s.ctrl with leftLimitState := r.1.state } }
  if r.2 = true ∧ r.1.state = true then
    limitActivationEffects HomingState.FINDING_LEFT now s2
  else s2

/-- The right-switch half of `checkLimitSwitches`, symmetric to the left. -/
def rightSwitchStep (pin : Bool) (now : Nat) (s : SysState) : SysState :=
  let r := monTick s.rightMon pin now
  let s2 := { s with rightMon := r.1, ctrl := { s.ctrl with rightLimitState := r.1.state } }
  if r.2 = true ∧ r.1.state = true then
    limitActivationEffects HomingState.FINDING_RIGHT now s2
  else s2

/-- Port of `checkLimitSwitches`: sample both pins from the axis position
(`L`/`R` are the physical switch positions: the left switch reads active at or
below `L`, the right at or above `R`), then process the left switch followed by
the right switch. -/
def checkLimitSwitches (L R : Int) (now : Nat) (s : SysState) : SysState :=
  let leftPinReading : Bool := decide (s.axis.pos ≤ L)
  let rightPinReading : Bool := decide (s.axis.pos ≥ R)
  rightSwitchStep rightPinReading now (leftSwitchStep leftPinReading now s)

/-- Port of `updateMotionStatus`: refresh the cached position and classify the
motion state. The accelerating/decelerating ramp split needs driver internals,
so a running axis is published as constant velocity here. -/
def updateMotionStatus (s : SysState) : SysState :=
  let c := { s.ctrl with currentPosition := s.axis.getCurrentPosition }
  let st :=
    if c.homingState ≠ HomingState.IDLE ∧ c.homingState ≠ HomingState.COMPLETE ∧
        c.homingState ≠ HomingState.ERROR then
      MotionState.HOMING
    else if s.axis.isRunning = true then
      MotionState.CONSTANT_VELOCITY
    else
      MotionState.IDLE
  { s with ctrl := { c with motionState := st } }

/-- The profile of a default-constructed `MotionCommand` (its contents are
never read by the `HOME` handler). -/
def emptyProfile : MotionProfile :=
  { maxSpeed := 0, acceleration := 0, deceleration := 0, jerk := 0,
    targetPosition := 0, enableLimits := false }

/-- The `HOME` command the task builds for the auto-home path. -/
def autoHomeCommand (now : Nat) : MotionCommand :=
  { type := CommandType.HOME, profile := emptyProfile, timestamp := now, commandId := 0 }

/-- Port of the auto-home block of `stepperControllerTask`: once the axis is
stopped, homing is idle or complete, and the post-E-stop delay has elapsed, the
latched fault is cleared and a `HOME` command is processed directly. -/
def autoHomeStep (now : Nat) (s : SysState) : SysState :=
  if s.ctrl.autoHomeRequested = true ∧ s.axis.isRunning = false ∧
      (s.ctrl.homingState = HomingState.IDLE ∨ s.ctrl.homingState = HomingState.COMPLETE) ∧
      now - s.ctrl.autoHomeRequestTime ≥ AUTO_HOME_DELAY_MS then
    let c := { s.ctrl with limitFaultActive := false, autoHomeRequested := false }
    let r := processMotionCommand ⟨true, true, now⟩ c (autoHomeCommand now)
    { s with ctrl := r.state, axis := s.axis.applyCalls r.calls }
  else s

/-- The queue-drain slot of the task cycle: process the received command (when
one was pending) with the mutex modelled as acquired, applying its driver
calls to the simulated axis. -/
def commandStep (cmd? : Option MotionCommand) (now : Nat) (s : SysState) : SysState :=
  match cmd? with
  | some cmd =>
    let r := processMotionCommand ⟨true, true, now⟩ s.ctrl cmd
    { s with ctrl := r.state, axis := s.axis.applyCalls r.calls }
  | none => s

/-- The homing slot of the task cycle: `updateHomingSequence` runs only while
the homing machine is in a non-terminal state. -/
def homingStep (now : Nat) (s : SysState) : SysState :=
  if s.ctrl.homingState ≠ HomingState.IDLE ∧ s.ctrl.homingState ≠ HomingState.COMPLETE ∧
      s.ctrl.homingState ≠ HomingState.ERROR then
    updateHomingSequence now s
  else s

/-- One 2 ms cycle of `stepperControllerTask`: the axis advances one step, then
limit switches are checked, at most one queued command is processed, the homing
machine advances when active, the status is refreshed, and the auto-home
request is serviced. The CL57Y alarm sampling touches none of the modelled
state and is omitted. -/
def sysTick (L R : Int) (cmd? : Option MotionCommand) (s : SysState) : SysState :=
  let s1 := { s with axis := s.axis.step }
  let now := s.time
  let s6 := autoHomeStep now
    (updateMotionStatus (homingStep now (commandStep cmd? now (checkLimitSwitches L R now s1))))
  { s6 with time := now + 2 }

/-- Iterated system ticks with no queued commands (a pure homing run). -/
def sysRun (L R : Int) (n : Nat) (s : SysState) : SysState :=
  match n with
  | 0 => s
  | n + 1 => sysRun L R n (sysTick L R none s)

/-- A `HOME` motion command as a front end would enqueue it. -/
def homeCmd : MotionCommand :=
  { type := CommandType.HOME, profile := emptyProfile, timestamp := 0, commandId := 0 }

/-- Default motion profile from the static initializer of `g_currentProfile`
(`DEFAULT_MAX_SPEED`/`DEFAULT_ACCELERATION` of `HardwareConfig.h`, same value
for deceleration, jerk 1000, limits enforced). -/
def initialProfile : MotionProfile :=
  { maxSpeed := 5000, acceleration := 5000, deceleration := 5000, jerk := 1000,
    targetPosition := 0, enableLimits := true }

/-- Port of the state initialization performed by `initialize()`
(`StepperController.cpp`): load the saved profile when a configuration is
present (deceleration receives the configured acceleration), default homing
speed 940 steps/s, limits not yet valid, not homed, no fault, outputs enabled,
limit states read from the pins. -/
def initController (config? : Option SystemConfig) (leftPin rightPin : Bool) : CtrlState :=
  let prof :=
    match config? with
    | some cfg =>
      { initialProfile with
        maxSpeed := cfg.defaultProfile.maxSpeed
        acceleration := cfg.defaultProfile.acceleration
        deceleration := cfg.defaultProfile.acceleration
        jerk := cfg.defaultProfile.jerk
        enableLimits := cfg.defaultProfile.enableLimits }
    | none => initialProfile
  let hs : Rat :=
    match config? with
    | some cfg => cfg.homingSpeed
    | none => 940
  { currentPosition := 0
    minPosition := MIN_POSITION_STEPS
    maxPosition := MAX_POSITION_STEPS
    positionLimitsValid := false
    systemHomed := false
    motionState := MotionState.IDLE
    stepperEnabled := true
    limitFaultActive := false
    currentProfile := prof
    homingState := HomingState.IDLE
    homingProgress := 0
    detectedRightLimit := 0
    homingSpeed := hs
    homingStartTime := 0
    homingPhaseStartTime := 0
    safetyState := SafetyState.NORMAL
    leftLimitState := leftPin
    rightLimitState := rightPin
    autoHomeRequested := false
    autoHomeRequestTime := 0
    config := config? }

/-- Port of the thread-safe producer `setAcceleration(float)`
(`StepperController.cpp`): reject non-positive accelerations, otherwise build a
`SET_ACCELERATION` command whose profile carries the same value in both the
acceleration and deceleration fields. -/
def setAccelerationCommand (currentProfile : MotionProfile) (accel : Rat) (now : Nat) :
    Option MotionCommand :=
  if accel ≤ 0 then none
  else
    some { type := CommandType.SET_ACCELERATION
           profile := { currentProfile with acceleration := accel, deceleration := accel }
           timestamp := now
           commandId := 0 }

/-- Capacity of the motion command queue, from
`xQueueCreate(10, sizeof(MotionCommand))` in `GlobalInfrastructure.cpp`. -/
def MOTION_QUEUE_CAPACITY : Nat := 10

/-- Modelled from the spec: the FreeRTOS queue itself lives outside the
repository; per the spec's CommandArbiter contract it is a bounded FIFO of
`MotionCommand`s with non-blocking producers and a single consumer. -/
structure CmdQueue where
  items : List MotionCommand
  deriving DecidableEq, Repr

/-- Modelled from the spec: non-blocking `xQueueSend` - appends at the tail and
returns true, or returns false (command dropped) when the queue already holds
`MOTION_QUEUE_CAPACITY` items. -/
def CmdQueue.enqueue (q : CmdQueue) (cmd : MotionCommand) : CmdQueue × Bool :=
  if q.items.length ≥ MOTION_QUEUE_CAPACITY then (q, false)
  else ({ items := q.items ++ [cmd] }, true)

/-- Modelled from the spec: non-blocking `xQueueReceive` - removes and returns
the oldest element, or `none` when empty. -/
def CmdQueue.receive (q : CmdQueue) : Option (MotionCommand × CmdQueue) :=
  match q.items with
  | [] => none
  | cmd :: rest => some (cmd, { items := rest })

/-- Enqueue a batch left to right, collecting each send's result. -/
def CmdQueue.enqueueAll (q : CmdQueue) (cmds : List MotionCommand) : CmdQueue × List Bool :=
  match cmds with
  | [] => (q, [])
  | cmd :: rest =>
    let r := q.enqueue cmd
    let r2 := r.1.enqueueAll rest
    (r2.1, r.2 :: r2.2)

/-- The queue-drain step of one `stepperControllerTask` cycle: at most one
command is received and executed per 2 ms tick (a single `xQueueReceive` with
zero timeout per loop iteration). -/
def taskDrainOne (env : CallEnv) (s : CtrlState) (q : CmdQueue) :
    CtrlState × CmdQueue × List DriverCall :=
  match q.receive with
  | none => (s, q, [])
  | some (cmd, q2) =>
    let r := processMotionCommand env s cmd
    (r.state, q2, r.calls)

/-- Repeated task cycles: the commands executed, in order, over `n` ticks. -/
def taskDrainRun (env : CallEnv) (s : CtrlState) (q : CmdQueue) : Nat → List MotionCommand
  | 0 => []
  | n + 1 =>
    match q.receive with
    | none => []
    | some (cmd, q2) =>
      cmd :: taskDrainRun env (processMotionCommand env s cmd).state q2 n

/-- A freshly booted, idle system whose axis rests at physical position `p0`
(no configuration store present, both switches released, clock at `t0`). -/
def idleSys (p0 : Int) (t0 : Nat) : SysState :=
  { ctrl := initController none false false
    axis := { pos := p0, target := p0, offset := 0 }
    leftMon := { state := false, debounceStart := 0, triggered := false, lastPin := false }
    rightMon := { state := false, debounceStart := 0, triggered := false, lastPin := false }
    time := t0 }

/-- Controller state during an active homing run started from `idleSys` (no
configuration, default profile, fault-free); only the phase-dependent fields
are parameters. -/
def runCtrl (curPos minP maxP : Int) (valid : Bool) (hs : HomingState) (prog : Nat)
    (detR : Int) (phaseT t0 : Nat) (lls rls : Bool) : CtrlState :=
  { currentPosition := curPos
    minPosition := minP
    maxPosition := maxP
    positionLimitsValid := valid
    systemHomed := false
    motionState := MotionState.HOMING
    stepperEnabled := true
    limitFaultActive := false
    currentProfile := initialProfile
    homingState := hs
    homingProgress := prog
    detectedRightLimit := detR
    homingSpeed := 940
    homingStartTime := t0
    homingPhaseStartTime := phaseT
    safetyState := SafetyState.NORMAL
    leftLimitState := lls
    rightLimitState := rls
    autoHomeRequested := false
    autoHomeRequestTime := 0
    config := none }

/-- A debounce monitor at rest (confirmed inactive, timer idle). -/
def monIdle (lastPin : Bool) : LimitMon :=
  { state := false, debounceStart := 0, triggered := false, lastPin := lastPin }

/-- A monitor whose confirmed state is active with the timer idle. -/
def monActive : LimitMon :=
  { state := true, debounceStart := 0, triggered := false, lastPin := true }

/-- A monitor debouncing a pending transition: confirmed state `st`, timer
started at `d`, interrupt flag pending, raw pin reading `¬st`. -/
def monPending (st : Bool) (d : Nat) : LimitMon :=
  { state := st, debounceStart := d, triggered := true, lastPin := !st }

/-- Monitor state after `k` control-cycle visits, starting from `m0`, where
visit `k` samples raw reading `rd k` at time `tm k` (the per-tick call of
`checkLimitSwitches` to one switch). -/
def monAt (m0 : LimitMon) (tm : Nat → Nat) (rd : Nat → Bool) : Nat → LimitMon
  | 0 => m0
  | k + 1 => (monTick (monAt m0 tm rd k) (rd k) (tm k)).1

/-- Whether visit `k` confirmed a state transition. -/
def confirmedAt (m0 : LimitMon) (tm : Nat → Nat) (rd : Nat → Bool) (k : Nat) : Bool :=
  (monTick (monAt m0 tm rd k) (rd k) (tm k)).2

/-- Sample times of the concrete re-arm run: 51 ms apart. -/
def tmW (k : Nat) : Nat := 51 * k + 1

/-- Raw readings of the concrete re-arm run: active for three samples, then
released. -/
def rdW (k : Nat) : Bool := decide (k < 3)

/-- Homing-run snapshot: approaching the left switch (`FINDING_LEFT`), `j`
ticks after the `HOME` command tick. -/
def snapA (p0 : Int) (t0 : Nat) (j : Nat) : SysState :=
  { ctrl := runCtrl (p0 - j) 0 6400 false HomingState.FINDING_LEFT 10 0 t0 t0 false false
    axis := { pos := p0 - j, target := -100000, offset := 0 }
    leftMon := monIdle false
    rightMon := monIdle false
    time := t0 + 2 * (j + 1) }

/-- Snapshot: the left pin has been reading active since time `d` and the axis
keeps moving left while the activation debounces (`j` ticks into the window). -/
def snapB (L : Int) (t0 d : Nat) (j : Nat) : SysState :=
  { ctrl := runCtrl (L - j) 0 6400 false HomingState.FINDING_LEFT 10 0 t0 t0 false false
    axis := { pos := L - j, target := -100000, offset := 0 }
    leftMon := monPending false d
    rightMon := monIdle false
    time := d + 2 * (j + 1) }

/-- Snapshot: left activation confirmed at time `ph`; axis hard-stopped at
`L - 50`, homing in `BACKING_OFF_LEFT`. -/
def snapC (L : Int) (t0 ph : Nat) : SysState :=
  { ctrl := runCtrl (L - 50) 0 6400 false HomingState.BACKING_OFF_LEFT 10 0 ph t0 true false
    axis := { pos := L - 50, target := L - 50, offset := 0 }
    leftMon := monActive
    rightMon := monIdle false
    time := ph + 2 }

/-- Snapshot: backing off toward the switch position (`move(BACKOFF_STEPS)`
issued), axis at `L - 50 + j`. -/
def snapD (L : Int) (t0 ph : Nat) (j : Nat) : SysState :=
  { ctrl := runCtrl (L - 50 + j) 0 6400 false HomingState.BACKING_OFF_LEFT 25 0 ph t0 true false
    axis := { pos := L - 50 + j, target := L, offset := 0 }
    leftMon := monActive
    rightMon := monIdle false
    time := ph + 4 + 2 * j }

/-- Snapshot: the first back-off leg ended still on the switch; a second
`move(BACKOFF_STEPS)` has been issued from `L`. -/
def snapE (L : Int) (t0 ph : Nat) : SysState :=
  { ctrl := runCtrl L 0 6400 false HomingState.BACKING_OFF_LEFT 25 0 ph t0 true false
    axis := { pos := L, target := L + 50, offset := 0 }
    leftMon := monActive
    rightMon := monIdle false
    time := ph + 104 }

/-- Snapshot: the left pin released at time `d2` and the release is debouncing
while the axis backs off (`j` ticks into the window). -/
def snapF (L : Int) (t0 ph d2 : Nat) (j : Nat) : SysState :=
  { ctrl := runCtrl (L + 1 + j) 0 6400 false HomingState.BACKING_OFF_LEFT 25 0 ph t0 true false
    axis := { pos := L + 1 + j, target := L + 50, offset := 0 }
    leftMon := monPending true d2
    rightMon := monIdle false
    time := d2 + 2 * (j + 1) }

/-- Snapshot: the second back-off leg ended before the release confirmed; a
third `move(BACKOFF_STEPS)` has been issued from `L + 50`. -/
def snapG (L : Int) (t0 ph d2 : Nat) : SysState :=
  { ctrl := runCtrl (L + 50) 0 6400 false HomingState.BACKING_OFF_LEFT 25 0 ph t0 true false
    axis := { pos := L + 50, target := L + 100, offset := 0 }
    leftMon := monPending true d2
    rightMon := monIdle false
    time := d2 + 100 }

/-- Snapshot: release confirmed at `L + 51`; logical zero set there, limits
partially established, heading for the right switch (`FINDING_RIGHT`). -/
def snapH (L : Int) (t0 ph2 : Nat) : SysState :=
  { ctrl := runCtrl 0 10 6400 false HomingState.FINDING_RIGHT 25 0 ph2 t0 false false
    axis := { pos := L + 51, target := L + 51 + 100000, offset := L + 51 }
    leftMon := monIdle false
    rightMon := monIdle false
    time := ph2 + 2 }

/-- Snapshot: traveling right toward the far switch, logical position `j`. -/
def snapI (L : Int) (t0 ph2 : Nat) (j : Nat) : SysState :=
  { ctrl := runCtrl j 10 6400 false HomingState.FINDING_RIGHT 50 0 ph2 t0 false false
    axis := { pos := L + 51 + j, target := L + 51 + 100000, offset := L + 51 }
    leftMon := monIdle false
    rightMon := monIdle false
    time := ph2 + 2 * (j + 1) }

/-- Snapshot: the right pin has been reading active since `d3` while the axis
overshoots during the debounce window. -/
def snapJ (L R : Int) (t0 ph2 d3 : Nat) (j : Nat) : SysState :=
  { ctrl := runCtrl (R - L - 51 + j) 10 6400 false HomingState.FINDING_RIGHT 50 0 ph2 t0
      false false
    axis := { pos := R + j, target := L + 51 + 100000, offset := L + 51 }
    leftMon := monIdle false
    rightMon := monPending false d3
    time := d3 + 2 * (j + 1) }

/-- Snapshot: right activation confirmed at time `ph3`; axis hard-stopped at
`R + 50`, raw right-limit position recorded, homing in `BACKING_OFF_RIGHT`. -/
def snapK (L R : Int) (t0 ph3 : Nat) : SysState :=
  { ctrl := runCtrl (R - L - 1) 10 6400 false HomingState.BACKING_OFF_RIGHT 50 (R - L - 1)
      ph3 t0 false true
    axis := { pos := R + 50, target := R + 50, offset := L + 51 }
    leftMon := monIdle false
    rightMon := monActive
    time := ph3 + 2 }

/-- Snapshot: backing off from the right switch (`move(-BACKOFF_STEPS)`
issued), axis at `R + 50 - j`. -/
def snapM (L R : Int) (t0 ph3 : Nat) (j : Nat) : SysState :=
  { ctrl := runCtrl (R - L - 1 - j) 10 6400 false HomingState.BACKING_OFF_RIGHT 75
      (R - L - 1) ph3 t0 false true
    axis := { pos := R + 50 - j, target := R, offset := L + 51 }
    leftMon := monIdle false
    rightMon := monActive
    time := ph3 + 4 + 2 * j }

/-- Snapshot: the first right back-off leg ended still on the switch; a second
`move(-BACKOFF_STEPS)` has been issued from `R`. -/
def snapN (L R : Int) (t0 ph3 : Nat) : SysState :=
  { ctrl := runCtrl (R - L - 51) 10 6400 false HomingState.BACKING_OFF_RIGHT 75 (R - L - 1)
      ph3 t0 false true
    axis := { pos := R, target := R - 50, offset := L + 51 }
    leftMon := monIdle false
    rightMon := monActive
    time := ph3 + 104 }

/-- Snapshot: the right pin released at `d4` and the release is debouncing
while the axis backs off. -/
def snapO (L R : Int) (t0 ph3 d4 : Nat) (j : Nat) : SysState :=
  { ctrl := runCtrl (R - L - 52 - j) 10 6400 false HomingState.BACKING_OFF_RIGHT 75
      (R - L - 1) ph3 t0 false true
    axis := { pos := R - 1 - j, target := R - 50, offset := L + 51 }
    leftMon := monIdle false
    rightMon := monPending true d4
    time := d4 + 2 * (j + 1) }

/-- Snapshot: the second right back-off leg ended before the release
confirmed; a third `move(-BACKOFF_STEPS)` has been issued from `R - 50`. -/
def snapP (L R : Int) (t0 ph3 d4 : Nat) : SysState :=
  { ctrl := runCtrl (R - L - 101) 10 6400 false HomingState.BACKING_OFF_RIGHT 75 (R - L - 1)
      ph3 t0 false true
    axis := { pos := R - 50, target := R - 100, offset := L + 51 }
    leftMon := monIdle false
    rightMon := monPending true d4
    time := d4 + 100 }

/-- The configured-reference position the no-configuration homing run moves to
(the midpoint of the discovered operating range, C++ integer division). -/
def homeCenter (L R : Int) : Int := Int.tdiv (10 + (R - L - 112)) 2

/-- Snapshot: right release confirmed at `R - 51`; physical limits recorded
(`physicalMax = (R-L) - 112`), heading for the reference position. -/
def snapQ (L R : Int) (t0 ph3 tq : Nat) : SysState :=
  { ctrl := runCtrl (R - L - 102) 10 (R - L - 112) true HomingState.MOVING_TO_CENTER 75
      (R - L - 1) ph3 t0 false false
    axis := { pos := R - 51, target := L + 51 + homeCenter L R, offset := L + 51 }
    leftMon := monIdle false
    rightMon := monIdle false
    time := tq }

/-- Snapshot: traveling to the reference position, `j` steps below `R - 51`. -/
def snapS (L R : Int) (t0 ph3 tq : Nat) (j : Nat) : SysState :=
  { ctrl := runCtrl (R - L - 102 - j) 10 (R - L - 112) true HomingState.MOVING_TO_CENTER 90
      (R - L - 1) ph3 t0 false false
    axis := { pos := R - 51 - j, target := L + 51 + homeCenter L R, offset := L + 51 }
    leftMon := monIdle false
    rightMon := monIdle false
    time := tq + 2 * j }

/-- Snapshot: the completed homing run - homed, fault-free, limits valid. -/
def snapFinal (L R : Int) (t0 ph3 tf : Nat) : SysState :=
  { ctrl :=
    { currentPosition := homeCenter L R
      minPosition := 10
      maxPosition := R - L - 112
      positionLimitsValid := true
      systemHomed := true
      motionState := MotionState.IDLE
      stepperEnabled := true
      limitFaultActive := false
      currentProfile := initialProfile
      homingState := HomingState.COMPLETE
      homingProgress := 100
      detectedRightLimit := R - L - 1
      homingSpeed := 940
      homingStartTime := t0
      homingPhaseStartTime := ph3
      safetyState := SafetyState.NORMAL
      leftLimitState := false
      rightLimitState := false
      autoHomeRequested := false
      autoHomeRequestTime := 0
      config := none }
    axis := { pos := L + 51 + homeCenter L R, target := L + 51 + homeCenter L R,
              offset := L + 51 }
    leftMon := monIdle false
    rightMon := monIdle false
    time := tf }

/-- Base target of a move command before clamping: the absolute target for
`MOVE_ABSOLUTE`, the current position plus the delta (with int32 wrap) for
`MOVE_RELATIVE`. -/
def moveBaseTarget (s : CtrlState) (cmd : MotionCommand) : Int :=
  if cmd.type = CommandType.MOVE_ABSOLUTE then cmd.profile.targetPosition
  else wrap32 (s.currentPosition + cmd.profile.targetPosition)

/-- The coupling invariant of C10: the live profile's deceleration equals its
acceleration. -/
def profileCoupled (s : CtrlState) : Prop :=
  s.currentProfile.deceleration = s.currentProfile.acceleration

def runCommands (env : CallEnv) (s : CtrlState) (cmds : List MotionCommand) : CtrlState :=
  cmds.foldl (fun st c => (processMotionCommand env st c).state) s


/-- A stored configuration used in the concrete scenarios: user limits 10..1888,
homing speed 940 steps/s, auto-home after E-stop enabled. -/
def sampleConfig : SystemConfig :=
  { minPosition := 10
    maxPosition := 1888
    homingSpeed := 940
    homePositionPercent := 50
    autoHomeOnEstop := true
    defaultProfile := initialProfile }

/-- A freshly initialized controller with no stored configuration: not yet
homed, no fault latched. -/
def unhomedCtrl : CtrlState := initController none false false

/-- A homed controller with valid position limits and the sample
configuration. -/
def homedCtrl : CtrlState :=
  { initController (some sampleConfig) false false with
      systemHomed := true
      positionLimitsValid := true
      minPosition := 10
      maxPosition := 1888 }

/-- A concrete `SET_SPEED` command (2000 steps/s). -/
def speedCmd : MotionCommand :=
  { type := CommandType.SET_SPEED
    profile := { emptyProfile with maxSpeed := 2000 }
    timestamp := 0
    commandId := 0 }

/-- A concrete `SET_ACCELERATION` command (2500 steps/s^2). -/
def accelCmd : MotionCommand :=
  { type := CommandType.SET_ACCELERATION
    profile := { emptyProfile with acceleration := 2500 }
    timestamp := 0
    commandId := 0 }

/-- A concrete `EMERGENCY_STOP` command. -/
def estopCmd : MotionCommand :=
  { type := CommandType.EMERGENCY_STOP
    profile := emptyProfile
    timestamp := 0
    commandId := 0 }

/-- A concrete `MOVE_ABSOLUTE` command targeting step 5000 with limit
enforcement on. -/
def moveCmd : MotionCommand :=
  { type := CommandType.MOVE_ABSOLUTE
    profile := { initialProfile with targetPosition := 5000 }
    timestamp := 0
    commandId := 0 }

/-- The command the `setAcceleration(2500)` producer builds. -/
def accelCmdSample : MotionCommand :=
  { type := CommandType.SET_ACCELERATION
    profile := { initialProfile with acceleration := 2500, deceleration := 2500 }
    timestamp := 0
    commandId := 0 }

/-- A system in the post-E-stop situation: the limit fault is latched, an
auto-home request is pending from time 0, the axis rests at 500 between the
switches, and the clock has passed the 2 s auto-home delay. -/
def faultedSys : SysState :=
  { ctrl := { initController (some sampleConfig) false false with
        limitFaultActive := true
        autoHomeRequested := true
        autoHomeRequestTime := 0
        safetyState := SafetyState.POSITION_ERROR }
    axis := { pos := 500, target := 500, offset := 0 }
    leftMon := monIdle false
    rightMon := monIdle false
    time := 3000 }

end SkullStepper

namespace SkullStepper


theorem constrain_mem (x lo hi : Int) (h : lo ≤ hi) :
    lo ≤ constrain x lo hi ∧ constrain x lo hi ≤ hi := by
  unfold constrain; split_ifs <;> omega

theorem constrain_of_mem (r lo hi : Int) (h1 : lo ≤ r) (h2 : r ≤ hi) :
    constrain r lo hi = r := by
  unfold constrain; split_ifs <;> omega

theorem constrain_idem (x lo hi : Int) (h : lo ≤ hi) :
    constrain (constrain x lo hi) lo hi = constrain x lo hi :=
  constrain_of_mem _ _ _ (constrain_mem x lo hi h).1 (constrain_mem x lo hi h).2

theorem constrain_mono (a b lo hi : Int) (h : lo ≤ hi) (hab : a ≤ b) :
    constrain a lo hi ≤ constrain b lo hi := by
  unfold constrain; split_ifs <;> omega

end SkullStepper
namespace SkullStepper

set_option maxHeartbeats 1000000 in
/-- C4: with limit enforcement on, the target handed to the driver's `moveTo`
is the move's base target (the absolute target, or current position plus delta
for `MOVE_RELATIVE`) clamped into the user operating range derived from the
configuration, the commanded target lies within that range, and re-applying
the clamp is a no-op; with enforcement off the base target passes through
unclamped. -/
theorem move_clamp (env : CallEnv) (s : CtrlState) (cmd : MotionCommand) (config : SystemConfig)
    (hinit : env.initialized = true) (hmutex : env.mutexAcquired = true)
    (hfault : s.limitFaultActive = false) (hhomed : s.systemHomed = true)
    (hvalid : s.positionLimitsValid = true) (hcfg : s.config = some config)
    (hphys : s.minPosition ≤ s.maxPosition)
    (huser : config.minPosition ≤ config.maxPosition)
    (htype : cmd.type = CommandType.MOVE_ABSOLUTE ∨ cmd.type = CommandType.MOVE_RELATIVE) :
    (cmd.profile.enableLimits = true →
      (processMotionCommand env s cmd).calls =
        [DriverCall.moveTo (constrain (moveBaseTarget s cmd)
          (constrain config.minPosition s.minPosition s.maxPosition)
          (constrain config.maxPosition s.minPosition s.maxPosition))] ∧
      constrain config.minPosition s.minPosition s.maxPosition ≤
        constrain (moveBaseTarget s cmd)
          (constrain config.minPosition s.minPosition s.maxPosition)
          (constrain config.maxPosition s.minPosition s.maxPosition) ∧
      constrain (moveBaseTarget s cmd)
          (constrain config.minPosition s.minPosition s.maxPosition)
          (constrain config.maxPosition s.minPosition s.maxPosition) ≤
        constrain config.maxPosition s.minPosition s.maxPosition) ∧
    (cmd.profile.enableLimits = false →
      (processMotionCommand env s cmd).calls = [DriverCall.moveTo (moveBaseTarget s cmd)]) ∧
    (∀ x lo hi, lo ≤ hi → constrain (constrain x lo hi) lo hi = constrain x lo hi) := by
  have hmm : constrain config.minPosition s.minPosition s.maxPosition ≤
      constrain config.maxPosition s.minPosition s.maxPosition :=
    constrain_mono _ _ _ _ hphys huser
  refine ⟨?_, ?_, fun x lo hi hh => constrain_idem x lo hi hh⟩
  · intro hlim
    refine ⟨?_, (constrain_mem _ _ _ hmm).1, (constrain_mem _ _ _ hmm).2⟩
    rcases htype with ht | ht <;>
      simp [processMotionCommand, hinit, hmutex, ht, hfault, hhomed, hvalid, hcfg, hlim,
        moveBaseTarget]
  · intro hlim
    rcases htype with ht | ht <;>
      simp [processMotionCommand, hinit, hmutex, ht, hfault, hhomed, hvalid, hcfg, hlim,
        moveBaseTarget]

end SkullStepper

namespace SkullStepper

set_option maxHeartbeats 1000000 in
/-- C2 (corrected): the not-homed admission guard as the code implements it:
before the first successful homing (`systemHomed` false, no fault latched),
`MOVE_ABSOLUTE` and `MOVE_RELATIVE` are rejected with a position-error result
and no driver call, but `SET_SPEED` and `SET_ACCELERATION` are accepted - the
not-homed gate covers only the two move commands, not every command outside
the claim's exempt set. -/
theorem notHomed_guard (env : CallEnv) (s : CtrlState) (cmd : MotionCommand)
    (hinit : env.initialized = true) (hmutex : env.mutexAcquired = true)
    (hunhomed : s.systemHomed = false) (hnofault : s.limitFaultActive = false) :
    ((cmd.type = CommandType.MOVE_ABSOLUTE ∨ cmd.type = CommandType.MOVE_RELATIVE) →
      processMotionCommand env s cmd =
        ⟨{ s with safetyState := SafetyState.POSITION_ERROR }, false, []⟩) ∧
    (cmd.type = CommandType.SET_SPEED →
      (processMotionCommand env s cmd).success = true) ∧
    (cmd.type = CommandType.SET_ACCELERATION →
      (processMotionCommand env s cmd).success = true) := by
  refine ⟨?_, ?_, ?_⟩ <;> intro htype
  · rcases htype with ht | ht <;>
      simp [processMotionCommand, hinit, hmutex, ht, hunhomed, hnofault]
  · simp [processMotionCommand, hinit, hmutex, htype, hnofault]
  · simp [processMotionCommand, hinit, hmutex, htype, hnofault]

set_option maxHeartbeats 1000000 in
/-- While the limit fault is latched, each of the four motion-parameter
commands is rejected with no driver call and the latch preserved. -/
theorem faultLatch_guard (env : CallEnv) (s : CtrlState) (cmd : MotionCommand)
    (hfault : s.limitFaultActive = true)
    (htype : cmd.type = CommandType.MOVE_ABSOLUTE ∨ cmd.type = CommandType.MOVE_RELATIVE ∨
      cmd.type = CommandType.SET_SPEED ∨ cmd.type = CommandType.SET_ACCELERATION) :
    (processMotionCommand env s cmd).success = false ∧
    (processMotionCommand env s cmd).calls = [] ∧
    (processMotionCommand env s cmd).state.limitFaultActive = true := by
  unfold processMotionCommand
  rcases htype with ht | ht | ht | ht <;>
    split_ifs <;> simp_all

end SkullStepper

namespace SkullStepper

set_option maxHeartbeats 1000000 in
theorem pmc_keeps_fault (env : CallEnv) (s : CtrlState) (cmd : MotionCommand)
    (h : s.limitFaultActive = true) :
    (processMotionCommand env s cmd).state.limitFaultActive = true := by
  cases htype : cmd.type <;>
    (unfold processMotionCommand <;>
     simp only [htype] <;>
     split_ifs <;>
     (try cases hcfg : s.config) <;>
     simp_all [startHomingSequence] <;>
     split_ifs <;> simp_all)

set_option maxHeartbeats 1000000 in
theorem pmc_keeps_autoHome (env : CallEnv) (s : CtrlState) (cmd : MotionCommand) :
    (processMotionCommand env s cmd).state.autoHomeRequested = s.autoHomeRequested ∧
    (processMotionCommand env s cmd).state.autoHomeRequestTime = s.autoHomeRequestTime := by
  cases htype : cmd.type <;>
    (unfold processMotionCommand <;>
     simp only [htype] <;>
     split_ifs <;>
     (try cases hcfg : s.config) <;>
     simp_all [startHomingSequence] <;>
     split_ifs <;> simp_all)

theorem lae_fault (es : HomingState) (now : Nat) (s : SysState) :
    (limitActivationEffects es now s).ctrl.limitFaultActive = s.ctrl.limitFaultActive ∨
    (limitActivationEffects es now s).ctrl.limitFaultActive = true := by
  unfold limitActivationEffects
  split_ifs <;> (try cases hc : s.ctrl.config) <;> simp_all <;> split_ifs <;> simp_all

theorem lae_autoHome (es : HomingState) (now : Nat) (s : SysState) :
    ((limitActivationEffects es now s).ctrl.autoHomeRequested = s.ctrl.autoHomeRequested ∧
     (limitActivationEffects es now s).ctrl.autoHomeRequestTime = s.ctrl.autoHomeRequestTime) ∨
    (limitActivationEffects es now s).ctrl.autoHomeRequestTime = now := by
  unfold limitActivationEffects
  split_ifs <;> (try cases hc : s.ctrl.config) <;> simp_all <;> split_ifs <;> simp_all

end SkullStepper
namespace SkullStepper

theorem lss_left_fault (pin : Bool) (now : Nat) (s : SysState) :
    (leftSwitchStep pin now s).ctrl.limitFaultActive = s.ctrl.limitFaultActive ∨
    (leftSwitchStep pin now s).ctrl.limitFaultActive = true := by
  simp only [leftSwitchStep]
  split_ifs with h
  · exact lae_fault HomingState.FINDING_LEFT now _
  · left; rfl

theorem lss_right_fault (pin : Bool) (now : Nat) (s : SysState) :
    (rightSwitchStep pin now s).ctrl.limitFaultActive = s.ctrl.limitFaultActive ∨
    (rightSwitchStep pin now s).ctrl.limitFaultActive = true := by
  simp only [rightSwitchStep]
  split_ifs with h
  · exact lae_fault HomingState.FINDING_RIGHT now _
  · left; rfl

theorem lss_left_autoHome (pin : Bool) (now : Nat) (s : SysState) :
    ((leftSwitchStep pin now s).ctrl.autoHomeRequested = s.ctrl.autoHomeRequested ∧
     (leftSwitchStep pin now s).ctrl.autoHomeRequestTime = s.ctrl.autoHomeRequestTime) ∨
    (leftSwitchStep pin now s).ctrl.autoHomeRequestTime = now := by
  simp only [leftSwitchStep]
  split_ifs with h
  · exact lae_autoHome HomingState.FINDING_LEFT now _
  · left; exact ⟨rfl, rfl⟩

theorem lss_right_autoHome (pin : Bool) (now : Nat) (s : SysState) :
    ((rightSwitchStep pin now s).ctrl.autoHomeRequested = s.ctrl.autoHomeRequested ∧
     (rightSwitchStep pin now s).ctrl.autoHomeRequestTime = s.ctrl.autoHomeRequestTime) ∨
    (rightSwitchStep pin now s).ctrl.autoHomeRequestTime = now := by
  simp only [rightSwitchStep]
  split_ifs with h
  · exact lae_autoHome HomingState.FINDING_RIGHT now _
  · left; exact ⟨rfl, rfl⟩

theorem cls_fault (L R : Int) (now : Nat) (s : SysState) :
    (checkLimitSwitches L R now s).ctrl.limitFaultActive = s.ctrl.limitFaultActive ∨
    (checkLimitSwitches L R now s).ctrl.limitFaultActive = true := by
  simp only [checkLimitSwitches]
  have h1 := lss_right_fault (decide (s.axis.pos ≥ R)) now
    (leftSwitchStep (decide (s.axis.pos ≤ L)) now s)
  have h2 := lss_left_fault (decide (s.axis.pos ≤ L)) now s
  rcases h1 with h | h <;> rcases h2 with h9 | h9 <;> simp_all

theorem cls_autoHome (L R : Int) (now : Nat) (s : SysState) :
    ((checkLimitSwitches L R now s).ctrl.autoHomeRequested = s.ctrl.autoHomeRequested ∧
     (checkLimitSwitches L R now s).ctrl.autoHomeRequestTime = s.ctrl.autoHomeRequestTime) ∨
    (checkLimitSwitches L R now s).ctrl.autoHomeRequestTime = now := by
  simp only [checkLimitSwitches]
  have h1 := lss_right_autoHome (decide (s.axis.pos ≥ R)) now
    (leftSwitchStep (decide (s.axis.pos ≤ L)) now s)
  have h2 := lss_left_autoHome (decide (s.axis.pos ≤ L)) now s
  rcases h1 with ⟨ha, hb⟩ | h <;> rcases h2 with ⟨hc, hd⟩ | h9 <;> simp_all

end SkullStepper
namespace SkullStepper

set_option maxHeartbeats 1000000 in
theorem uhs_fault_spec (now : Nat) (s : SysState) (hf : s.ctrl.limitFaultActive = true) :
    (updateHomingSequence now s).ctrl.limitFaultActive = true ∨
    ((updateHomingSequence now s).ctrl.limitFaultActive = false ∧
     (updateHomingSequence now s).ctrl.homingState = HomingState.COMPLETE ∧
     (updateHomingSequence now s).ctrl.systemHomed = true) := by
  by_cases ht : now - s.ctrl.homingStartTime > HOMING_TIMEOUT_MS
  · simp [updateHomingSequence, ht, hf]
  · cases hhs : s.ctrl.homingState <;>
      simp only [updateHomingSequence, if_neg ht, hhs] <;>
      (try split_ifs) <;>
      (try cases hc : s.ctrl.config) <;>
      simp_all

set_option maxHeartbeats 1000000 in
theorem uhs_keeps_autoHome (now : Nat) (s : SysState) :
    (updateHomingSequence now s).ctrl.autoHomeRequested = s.ctrl.autoHomeRequested ∧
    (updateHomingSequence now s).ctrl.autoHomeRequestTime = s.ctrl.autoHomeRequestTime := by
  by_cases ht : now - s.ctrl.homingStartTime > HOMING_TIMEOUT_MS
  · simp [updateHomingSequence, ht]
  · cases hhs : s.ctrl.homingState <;>
      simp only [updateHomingSequence, if_neg ht, hhs] <;>
      (try split_ifs) <;>
      (try cases hc : s.ctrl.config) <;>
      simp_all

theorem ums_keeps (s : SysState) :
    (updateMotionStatus s).ctrl.limitFaultActive = s.ctrl.limitFaultActive ∧
    (updateMotionStatus s).ctrl.homingState = s.ctrl.homingState ∧
    (updateMotionStatus s).ctrl.systemHomed = s.ctrl.systemHomed ∧
    (updateMotionStatus s).ctrl.autoHomeRequested = s.ctrl.autoHomeRequested ∧
    (updateMotionStatus s).ctrl.autoHomeRequestTime = s.ctrl.autoHomeRequestTime ∧
    (updateMotionStatus s).axis = s.axis := by
  simp [updateMotionStatus]

end SkullStepper
namespace SkullStepper

set_option maxHeartbeats 1000000 in
theorem ahs_spec (now : Nat) (s : SysState) :
    autoHomeStep now s = s ∨
    ((autoHomeStep now s).ctrl.systemHomed = false ∧
     (autoHomeStep now s).ctrl.autoHomeRequested = false ∧
     (autoHomeStep now s).ctrl.limitFaultActive = false ∧
     s.ctrl.autoHomeRequested = true ∧
     now - s.ctrl.autoHomeRequestTime ≥ AUTO_HOME_DELAY_MS) := by
  simp only [autoHomeStep]
  split_ifs with h
  · right
    obtain ⟨hreq, hrun, hhs, hdelay⟩ := h
    rcases hhs with h1 | h1 <;>
      simp [processMotionCommand, autoHomeCommand, startHomingSequence, h1, hreq, hdelay] <;>
      split_ifs <;> simp_all
  · left; rfl

theorem commandStep_fault (cmd? : Option MotionCommand) (now : Nat) (s : SysState)
    (hf : s.ctrl.limitFaultActive = true) :
    (commandStep cmd? now s).ctrl.limitFaultActive = true := by
  cases cmd? with
  | none => exact hf
  | some cmd => exact pmc_keeps_fault ⟨true, true, now⟩ s.ctrl cmd hf

theorem commandStep_autoHome (cmd? : Option MotionCommand) (now : Nat) (s : SysState) :
    (commandStep cmd? now s).ctrl.autoHomeRequested = s.ctrl.autoHomeRequested ∧
    (commandStep cmd? now s).ctrl.autoHomeRequestTime = s.ctrl.autoHomeRequestTime := by
  cases cmd? with
  | none => exact ⟨rfl, rfl⟩
  | some cmd => exact pmc_keeps_autoHome ⟨true, true, now⟩ s.ctrl cmd

set_option maxHeartbeats 1000000 in
theorem sysTick_fault_clear (L R : Int) (cmd? : Option MotionCommand) (s : SysState)
    (hf : s.ctrl.limitFaultActive = true)
    (h : (sysTick L R cmd? s).ctrl.limitFaultActive = false) :
    ((sysTick L R cmd? s).ctrl.homingState = HomingState.COMPLETE ∧
     (sysTick L R cmd? s).ctrl.systemHomed = true) ∨
    ((sysTick L R cmd? s).ctrl.systemHomed = false ∧
     s.ctrl.autoHomeRequested = true ∧
     (sysTick L R cmd? s).ctrl.autoHomeRequested = false) := by
  have hceq : (sysTick L R cmd? s).ctrl =
      (autoHomeStep s.time (updateMotionStatus (homingStep s.time (commandStep cmd? s.time
        (checkLimitSwitches L R s.time { s with axis := s.axis.step }))))).ctrl := rfl
  rw [hceq] at h ⊢
  have hcf := cls_fault L R s.time { s with axis := s.axis.step }
  have hca := cls_autoHome L R s.time { s with axis := s.axis.step }
  generalize hs2 : checkLimitSwitches L R s.time { s with axis := s.axis.step } = s2 at *
  have hcsf := commandStep_fault cmd? s.time s2
  have hcsa := commandStep_autoHome cmd? s.time s2
  generalize hs3 : commandStep cmd? s.time s2 = s3 at *
  have huf := uhs_fault_spec s.time s3
  have hua := uhs_keeps_autoHome s.time s3
  have hs4spec : homingStep s.time s3 = updateHomingSequence s.time s3 ∨
      homingStep s.time s3 = s3 := by
    unfold homingStep; split_ifs <;> simp
  generalize hs4 : homingStep s.time s3 = s4 at *
  have hums := ums_keeps s4
  generalize hs5 : updateMotionStatus s4 = s5 at *
  have hahs := ahs_spec s.time s5
  -- the monitor pass either kept the latch (then it was true downstream) or set it
  have hs2f : s2.ctrl.limitFaultActive = true := by
    rcases hcf with h9 | h9 <;> simp_all
  have hs3f : s3.ctrl.limitFaultActive = true := hcsf hs2f
  rcases hahs with heq | hfired
  · -- the auto-home step did not fire: the homing machine must have cleared the latch
    rw [heq] at h ⊢
    have hs4f : s4.ctrl.limitFaultActive = false := by
      rw [hums.1] at h; exact h
    rcases hs4spec with h4 | h4
    · rw [h4] at hs4f
      rcases huf hs3f with h9 | ⟨h9a, h9b, h9c⟩
      · exact absurd (hs4f.symm.trans h9) (by simp)
      · left
        constructor
        · rw [hums.2.1, h4, h9b]
        · rw [hums.2.2.1, h4, h9c]
    · rw [h4] at hs4f
      exact absurd (hs4f.symm.trans hs3f) (by simp)
  · -- the auto-home step fired
    right
    obtain ⟨hh1, hh2, _, hh4, hh5⟩ := hfired
    refine ⟨hh1, ?_, hh2⟩
    -- trace the pending request back to the start of the tick
    have h5a : s5.ctrl.autoHomeRequested = s2.ctrl.autoHomeRequested := by
      rw [hums.2.2.2.1]
      rcases hs4spec with h4 | h4 <;> rw [h4]
      · rw [hua.1, hcsa.1]
      · rw [hcsa.1]
    have h5t : s5.ctrl.autoHomeRequestTime = s2.ctrl.autoHomeRequestTime := by
      rw [hums.2.2.2.2.1]
      rcases hs4spec with h4 | h4 <;> rw [h4]
      · rw [hua.2, hcsa.2]
      · rw [hcsa.2]
    rcases hca with ⟨hpa, hpt⟩ | hnow
    · rw [h5a, hpa] at hh4; exact hh4
    · rw [h5t, hnow] at hh5
      simp [AUTO_HOME_DELAY_MS] at hh5
  done

end SkullStepper

namespace SkullStepper

set_option maxHeartbeats 2000000 in
/-- C9: rejection is atomic. Whenever `processMotionCommand` reports failure -
uninitialized module, mutex not acquired, or an admission rejection - it makes
no driver call and leaves the motion profile, homing state, homed flag and
position limits exactly as they were. -/
theorem reject_atomic (env : CallEnv) (s : CtrlState) (cmd : MotionCommand)
    (h : (processMotionCommand env s cmd).success = false) :
    (processMotionCommand env s cmd).calls = [] ∧
    (processMotionCommand env s cmd).state.currentProfile = s.currentProfile ∧
    (processMotionCommand env s cmd).state.homingState = s.homingState ∧
    (processMotionCommand env s cmd).state.systemHomed = s.systemHomed ∧
    (processMotionCommand env s cmd).state.minPosition = s.minPosition ∧
    (processMotionCommand env s cmd).state.maxPosition = s.maxPosition ∧
    (processMotionCommand env s cmd).state.positionLimitsValid = s.positionLimitsValid := by
  cases htype : cmd.type <;>
    (unfold processMotionCommand at h ⊢ <;>
     simp only [htype] at h ⊢ <;>
     split_ifs at * <;>
     (try cases hcfg : s.config) <;>
     simp_all)

end SkullStepper

namespace SkullStepper


theorem coupled_init (config? : Option SystemConfig) (l r : Bool) :
    profileCoupled (initController config? l r) := by
  cases config? <;> simp [profileCoupled, initController, initialProfile]

set_option maxHeartbeats 1000000 in
theorem coupled_step (env : CallEnv) (s : CtrlState) (cmd : MotionCommand)
    (h : profileCoupled s) : profileCoupled (processMotionCommand env s cmd).state := by
  unfold profileCoupled at *
  cases htype : cmd.type <;>
    (unfold processMotionCommand <;>
     simp only [htype] <;>
     split_ifs <;>
     (try cases hcfg : s.config) <;>
     simp_all [startHomingSequence] <;>
     split_ifs <;> simp_all)

theorem coupled_run (env : CallEnv) (s : CtrlState) (cmds : List MotionCommand)
    (h : profileCoupled s) : profileCoupled (runCommands env s cmds) := by
  induction cmds generalizing s with
  | nil => exact h
  | cons c rest ih => exact ih _ (coupled_step env s c h)

theorem coupled_producer (p : MotionProfile) (a : Rat) (now : Nat) (cmd : MotionCommand)
    (h : setAccelerationCommand p a now = some cmd) :
    cmd.profile.deceleration = cmd.profile.acceleration := by
  unfold setAccelerationCommand at h
  split_ifs at h
  rw [Option.some.injEq] at h
  subst h
  rfl

end SkullStepper

namespace SkullStepper

theorem startA (L R p0 : Int) (t0 : Nat) (hL : -90000 ≤ L) (hlo : L < p0) (hhi : p0 < R) :
    sysTick L R (some homeCmd) (idleSys p0 t0) = snapA p0 t0 0 := by
  have hpinL : (decide ((p0 : Int) ≤ L)) = false := by simp; omega
  have hpinR : (decide ((p0 : Int) ≥ R)) = false := by simp; omega
  have hrun : ¬((p0 : Int) = -100000) := by omega
  simp [sysTick, checkLimitSwitches, leftSwitchStep, rightSwitchStep, monTick, processLimit,
    commandStep, homingStep, updateHomingSequence, updateMotionStatus, autoHomeStep,
    limitActivationEffects, snapA, runCtrl, idleSys, monIdle, initController, homeCmd,
    processMotionCommand, startHomingSequence, AxisState.step, AxisState.isRunning,
    AxisState.applyCalls, AxisState.applyCall, AxisState.moveTo, AxisState.forceStop,
    AxisState.getCurrentPosition, hpinL, hpinR, HOMING_TIMEOUT_MS, emptyProfile,
    initialProfile, MIN_POSITION_STEPS, MAX_POSITION_STEPS, hrun]


theorem stepA (L R p0 : Int) (t0 : Nat) (j : Nat) (hL : -90000 ≤ L)
    (hj : L + 1 ≤ p0 - (j + 1)) (hhi : p0 < R) (htm : j ≤ 40000) :
    sysTick L R none (snapA p0 t0 j) = snapA p0 t0 (j + 1) := by
  have hrun2 : ¬((p0 : Int) - j - 1 = -100000) := by omega
  have hstep1 : ¬((p0 : Int) - j < -100000) := by omega
  have hstep2 : -100000 < (p0 : Int) - j := by omega
  have hpinL : ¬(p0 ≤ L + 1 + (j : Int)) := by omega
  have hpinL2 : ¬(p0 ≤ L + (1 + (j : Int))) := by omega
  have hpinR : ¬(R + 1 + (j : Int) ≤ p0) := by omega
  have hpinR2 : ¬(R + (1 + (j : Int)) ≤ p0) := by omega
  have hpinR3 : ¬(R ≤ p0 - (1 + (j : Int))) := by omega
  have hpinR4 : ¬(R ≤ p0 - (j : Int) - 1) := by omega
  have htmo : ¬(HOMING_TIMEOUT_MS < 2 * (j + 1)) := by simp [HOMING_TIMEOUT_MS]; omega
  have htmo2 : ¬(HOMING_TIMEOUT_MS < 2 * j + 2) := by simp [HOMING_TIMEOUT_MS]; omega
  simp [sysTick, checkLimitSwitches, leftSwitchStep, rightSwitchStep, monTick, processLimit,
    commandStep, homingStep, updateHomingSequence, updateMotionStatus, autoHomeStep,
    limitActivationEffects, snapA, runCtrl, monIdle,
    AxisState.step, AxisState.isRunning, AxisState.applyCalls, AxisState.applyCall,
    AxisState.moveTo, AxisState.forceStop, AxisState.getCurrentPosition,
    hrun2, hstep1, hstep2, hpinL, hpinL2, hpinR, hpinR2, hpinR3, hpinR4, htmo, htmo2]
  try omega


theorem boundAB (L R p0 : Int) (t0 a : Nat) (ha : (a : Int) = p0 - L) (ha1 : 1 ≤ a)
    (hL : -90000 ≤ L) (hhi : p0 < R) (htm : a ≤ 40000) :
    sysTick L R none (snapA p0 t0 (a - 1)) = snapB L t0 (t0 + 2 * a) 0 := by
  have h1 : ¬((p0 : Int) - ↑(a - 1) < -100000) := by omega
  have h2 : -100000 < (p0 : Int) - ↑(a - 1) := by omega
  have h3 : ¬((p0 : Int) - ↑(a - 1) - 1 = -100000) := by omega
  have hpinL : p0 ≤ L + 1 + ((a : Int) - 1) := by omega
  have hpinL2 : p0 ≤ L + 1 + ((a - 1 : Nat) : Int) := by omega
  have hpinL3 : (p0 : Int) - ↑(a - 1) - 1 ≤ L := by omega
  have hpinR : ¬(R ≤ (p0 : Int) - ↑(a - 1) - 1) := by omega
  have hpinR2 : ¬(R + 1 + ((a - 1 : Nat) : Int) ≤ p0) := by omega
  have htmo : ¬(HOMING_TIMEOUT_MS < 2 * (a - 1 + 1)) := by unfold HOMING_TIMEOUT_MS; omega
  have htmo2 : ¬(HOMING_TIMEOUT_MS < 2 * (a - 1) + 2) := by unfold HOMING_TIMEOUT_MS; omega
  simp [sysTick, checkLimitSwitches, leftSwitchStep, rightSwitchStep, monTick, processLimit,
    commandStep, homingStep, updateHomingSequence, updateMotionStatus, autoHomeStep,
    limitActivationEffects, snapA, snapB, runCtrl, monIdle, monPending,
    AxisState.step, AxisState.isRunning, AxisState.applyCalls, AxisState.applyCall,
    AxisState.moveTo, AxisState.forceStop, AxisState.getCurrentPosition,
    h1, h2, h3, hpinL, hpinL2, hpinL3, hpinR, hpinR2, htmo, htmo2]
  omega

theorem stepB (L R : Int) (t0 d : Nat) (j : Nat) (hj : j < 49) (hd : 1 ≤ d)
    (hL : -90000 ≤ L) (hLR : L < R) (htd : d ≤ t0 + 80000) (ht0 : t0 ≤ d) :
    sysTick L R none (snapB L t0 d j) = snapB L t0 d (j + 1) := by
  have h1 : ¬((L : Int) - ↑j < -100000) := by omega
  have h2 : -100000 < (L : Int) - ↑j := by omega
  have h3 : ¬((L : Int) - ↑j - 1 = -100000) := by omega
  have hpinL : L - (j : Int) - 1 ≤ L := by omega
  have hpinL2 : L ≤ L + 1 + (j : Int) := by omega
  have hpinR : ¬(R ≤ (L : Int) - ↑j - 1) := by omega
  have hdz : ¬(d = 0) := by omega
  have hcf : ¬(LIMIT_SWITCH_DEBOUNCE ≤ d + 2 * (j + 1) - d) := by
    unfold LIMIT_SWITCH_DEBOUNCE; omega
  have hcf2 : ¬(LIMIT_SWITCH_DEBOUNCE ≤ 2 * (j + 1)) := by
    unfold LIMIT_SWITCH_DEBOUNCE; omega
  have htmo : ¬(HOMING_TIMEOUT_MS < d + 2 * (j + 1) - t0) := by
    unfold HOMING_TIMEOUT_MS; omega
  simp [sysTick, checkLimitSwitches, leftSwitchStep, rightSwitchStep, monTick, processLimit,
    commandStep, homingStep, updateHomingSequence, updateMotionStatus, autoHomeStep,
    limitActivationEffects, snapB, runCtrl, monIdle, monPending,
    AxisState.step, AxisState.isRunning, AxisState.applyCalls, AxisState.applyCall,
    AxisState.moveTo, AxisState.forceStop, AxisState.getCurrentPosition,
    h1, h2, h3, hpinL, hpinL2, hpinR, hdz, hcf, hcf2, htmo]
  omega

theorem boundBC (L R : Int) (t0 d : Nat) (hd : 1 ≤ d)
    (hL : -90000 ≤ L) (hLR : L < R) (htd : d ≤ t0 + 80000) (ht0 : t0 ≤ d) :
    sysTick L R none (snapB L t0 d 49) = snapC L t0 (d + 100) := by
  have h1 : ¬((L : Int) - 49 < -100000) := by omega
  have h2 : -100000 < (L : Int) - 49 := by omega
  have h3 : ¬((L : Int) - 49 - 1 = -100000) := by omega
  have hpinL : L - (49 : Int) - 1 ≤ L := by omega
  have hpinL2 : L ≤ L + 1 + (49 : Int) := by omega
  have hpinL3 : L - (50 : Int) ≤ L := by omega
  have hpinR : ¬(R ≤ (L : Int) - 49 - 1) := by omega
  have hpinR2 : ¬(R ≤ (L : Int) - 50) := by omega
  have hdz : ¬(d = 0) := by omega
  have hcf : LIMIT_SWITCH_DEBOUNCE ≤ d + 2 * (49 + 1) - d := by
    simp [LIMIT_SWITCH_DEBOUNCE]
  have hcf2 : LIMIT_SWITCH_DEBOUNCE ≤ 2 * (49 + 1) := by unfold LIMIT_SWITCH_DEBOUNCE; omega
  have hcf3 : LIMIT_SWITCH_DEBOUNCE ≤ 100 := by unfold LIMIT_SWITCH_DEBOUNCE; omega
  have htmo : ¬(HOMING_TIMEOUT_MS < d + 2 * (49 + 1) - t0) := by
    unfold HOMING_TIMEOUT_MS; omega
  have htmo2 : ¬(HOMING_TIMEOUT_MS < d + 100 - t0) := by
    unfold HOMING_TIMEOUT_MS; omega
  simp [sysTick, checkLimitSwitches, leftSwitchStep, rightSwitchStep, monTick, processLimit,
    commandStep, homingStep, updateHomingSequence, updateMotionStatus, autoHomeStep,
    limitActivationEffects, snapB, snapC, runCtrl, monIdle, monPending, monActive,
    AxisState.step, AxisState.isRunning, AxisState.applyCalls, AxisState.applyCall,
    AxisState.moveTo, AxisState.forceStop, AxisState.getCurrentPosition,
    h1, h2, h3, hpinL, hpinL2, hpinL3, hpinR, hpinR2, hdz, hcf, hcf2, hcf3, htmo, htmo2]
  try omega

theorem boundCD (L R : Int) (t0 ph : Nat) (hL : -90000 ≤ L) (hLR : L < R)
    (hph : 1 ≤ ph) (htd : ph ≤ t0 + 85000) (ht0 : t0 ≤ ph) :
    sysTick L R none (snapC L t0 ph) = snapD L t0 ph 0 := by
  have hpinL : L - (50 : Int) ≤ L := by omega
  have hpinR : ¬(R ≤ (L : Int) - 50) := by omega
  have htmo : ¬(HOMING_TIMEOUT_MS < ph + 2 - t0) := by unfold HOMING_TIMEOUT_MS; omega
  simp [sysTick, checkLimitSwitches, leftSwitchStep, rightSwitchStep, monTick, processLimit,
    commandStep, homingStep, updateHomingSequence, updateMotionStatus, autoHomeStep,
    limitActivationEffects, snapC, snapD, runCtrl, monIdle, monPending, monActive,
    AxisState.step, AxisState.isRunning, AxisState.applyCalls, AxisState.applyCall,
    AxisState.moveTo, AxisState.forceStop, AxisState.getCurrentPosition, AxisState.move,
    BACKOFF_STEPS, hpinL, hpinR, htmo]
  try omega

end SkullStepper
namespace SkullStepper

theorem stepD (L R : Int) (t0 ph : Nat) (j : Nat) (hj : j < 49) (hL : -90000 ≤ L)
    (hLR : L < R) (hph : 1 ≤ ph) (htd : ph ≤ t0 + 85000) (ht0 : t0 ≤ ph) :
    sysTick L R none (snapD L t0 ph j) = snapD L t0 ph (j + 1) := by
  have h1 : (L : Int) - 50 + ↑j < L := by omega
  have h2 : ¬((L : Int) - 50 + ↑j > L) := by omega
  have h3 : ¬((L : Int) - 50 + ↑j + 1 = L) := by omega
  have hpinL : L - (50 : Int) + ↑j + 1 ≤ L := by omega
  have hpinL2 : L + 1 + (j : Int) ≤ L + 50 := by omega
  have hpinR : ¬(R ≤ (L : Int) - 50 + ↑j + 1) := by omega
  have htmo : ¬(HOMING_TIMEOUT_MS < ph + 4 + 2 * j - t0) := by unfold HOMING_TIMEOUT_MS; omega
  simp [sysTick, checkLimitSwitches, leftSwitchStep, rightSwitchStep, monTick, processLimit,
    commandStep, homingStep, updateHomingSequence, updateMotionStatus, autoHomeStep,
    limitActivationEffects, snapD, runCtrl, monIdle, monActive,
    AxisState.step, AxisState.isRunning, AxisState.applyCalls, AxisState.applyCall,
    AxisState.moveTo, AxisState.forceStop, AxisState.getCurrentPosition, AxisState.move,
    BACKOFF_STEPS, h1, h2, h3, hpinL, hpinL2, hpinR, htmo]
  try omega

theorem boundDE (L R : Int) (t0 ph : Nat) (hL : -90000 ≤ L) (hLR : L < R)
    (hph : 1 ≤ ph) (htd : ph ≤ t0 + 85000) (ht0 : t0 ≤ ph) :
    sysTick L R none (snapD L t0 ph 49) = snapE L t0 ph := by
  have h1 : (L : Int) - 50 + 49 < L := by omega
  have h4 : (L : Int) - 50 + 49 + 1 = L := by omega
  have hpinL : (L : Int) ≤ L := by omega
  have hpinL2 : L - (50 : Int) + 49 + 1 ≤ L := by omega
  have hpinR : ¬(R ≤ (L : Int) - 50 + 49 + 1) := by omega
  have hpinR2 : ¬(R ≤ (L : Int)) := by omega
  have htmo : ¬(HOMING_TIMEOUT_MS < ph + 4 + 2 * 49 - t0) := by unfold HOMING_TIMEOUT_MS; omega
  have htmo2 : ¬(HOMING_TIMEOUT_MS < ph + 102 - t0) := by unfold HOMING_TIMEOUT_MS; omega
  simp [sysTick, checkLimitSwitches, leftSwitchStep, rightSwitchStep, monTick, processLimit,
    commandStep, homingStep, updateHomingSequence, updateMotionStatus, autoHomeStep,
    limitActivationEffects, snapD, snapE, runCtrl, monIdle, monActive,
    AxisState.step, AxisState.isRunning, AxisState.applyCalls, AxisState.applyCall,
    AxisState.moveTo, AxisState.forceStop, AxisState.getCurrentPosition, AxisState.move,
    BACKOFF_STEPS, h1, h4, hpinL, hpinL2, hpinR, hpinR2, htmo, htmo2]
  try omega

theorem boundEF (L R : Int) (t0 ph : Nat) (hL : -90000 ≤ L) (hLR : L + 100 < R)
    (hph : 1 ≤ ph) (htd : ph ≤ t0 + 85000) (ht0 : t0 ≤ ph) :
    sysTick L R none (snapE L t0 ph) = snapF L t0 ph (ph + 104) 0 := by
  have h1 : (L : Int) < L + 50 := by omega
  have hpinL : ¬((L : Int) + 1 ≤ L) := by omega
  have hpinL2 : ¬((L : Int) ≤ L - 1) := by omega
  have hpinR : ¬(R ≤ (L : Int) + 1) := by omega
  have h3 : ¬((L : Int) + 1 = L + 50) := by omega
  have htmo : ¬(HOMING_TIMEOUT_MS < ph + 104 - t0) := by unfold HOMING_TIMEOUT_MS; omega
  simp [sysTick, checkLimitSwitches, leftSwitchStep, rightSwitchStep, monTick, processLimit,
    commandStep, homingStep, updateHomingSequence, updateMotionStatus, autoHomeStep,
    limitActivationEffects, snapE, snapF, runCtrl, monIdle, monActive, monPending,
    AxisState.step, AxisState.isRunning, AxisState.applyCalls, AxisState.applyCall,
    AxisState.moveTo, AxisState.forceStop, AxisState.getCurrentPosition, AxisState.move,
    BACKOFF_STEPS, h1, h3, hpinL, hpinL2, hpinR, htmo]
  try omega

theorem stepF (L R : Int) (t0 ph d2 : Nat) (j : Nat) (hj : j < 48) (hL : -90000 ≤ L)
    (hLR : L + 100 < R) (hd2 : 1 ≤ d2) (htd : d2 ≤ t0 + 85000) (ht0 : t0 ≤ d2) :
    sysTick L R none (snapF L t0 ph d2 j) = snapF L t0 ph d2 (j + 1) := by
  have h1 : (L : Int) + 1 + ↑j < L + 50 := by omega
  have hpinL : ¬((L : Int) + 1 + ↑j + 1 ≤ L) := by omega
  have hpinL2 : ¬((L : Int) + 2 + ↑j ≤ L) := by omega
  have hpinR : ¬(R ≤ (L : Int) + 1 + ↑j + 1) := by omega
  have hpinR2 : ¬(R ≤ (L : Int) + 2 + ↑j) := by omega
  have h3 : ¬((L : Int) + 1 + ↑j + 1 = L + 50) := by omega
  have hdz : ¬(d2 = 0) := by omega
  have hcf : ¬(LIMIT_SWITCH_DEBOUNCE ≤ d2 + 2 * (j + 1) - d2) := by
    unfold LIMIT_SWITCH_DEBOUNCE; omega
  have hcf2 : ¬(LIMIT_SWITCH_DEBOUNCE ≤ 2 * (j + 1)) := by
    unfold LIMIT_SWITCH_DEBOUNCE; omega
  have htmo : ¬(HOMING_TIMEOUT_MS < d2 + 2 * (j + 1) - t0) := by
    unfold HOMING_TIMEOUT_MS; omega
  simp [sysTick, checkLimitSwitches, leftSwitchStep, rightSwitchStep, monTick, processLimit,
    commandStep, homingStep, updateHomingSequence, updateMotionStatus, autoHomeStep,
    limitActivationEffects, snapF, runCtrl, monIdle, monPending,
    AxisState.step, AxisState.isRunning, AxisState.applyCalls, AxisState.applyCall,
    AxisState.moveTo, AxisState.forceStop, AxisState.getCurrentPosition, AxisState.move,
    BACKOFF_STEPS, h1, h3, hpinL, hpinL2, hpinR, hpinR2, hdz, hcf, hcf2, htmo]
  try omega

end SkullStepper
namespace SkullStepper

theorem boundFG (L R : Int) (t0 ph d2 : Nat) (hL : -90000 ≤ L) (hLR : L + 100 < R)
    (hd2 : 1 ≤ d2) (htd : d2 ≤ t0 + 85000) (ht0 : t0 ≤ d2) :
    sysTick L R none (snapF L t0 ph d2 48) = snapG L t0 ph d2 := by
  have h1 : (L : Int) + 1 + 48 < L + 50 := by omega
  have h4 : (L : Int) + 1 + 48 + 1 = L + 50 := by omega
  have hpinL : ¬((L : Int) + 1 + 48 + 1 ≤ L) := by omega
  have hpinL2 : ¬((L : Int) + 50 ≤ L) := by omega
  have hpinR : ¬(R ≤ (L : Int) + 1 + 48 + 1) := by omega
  have hpinR2 : ¬(R ≤ (L : Int) + 50) := by omega
  have hdz : ¬(d2 = 0) := by omega
  have hcf : ¬(LIMIT_SWITCH_DEBOUNCE ≤ d2 + 2 * (48 + 1) - d2) := by
    unfold LIMIT_SWITCH_DEBOUNCE; omega
  have hcf2 : ¬(LIMIT_SWITCH_DEBOUNCE ≤ 2 * (48 + 1)) := by
    unfold LIMIT_SWITCH_DEBOUNCE; omega
  have hcf3 : ¬(LIMIT_SWITCH_DEBOUNCE ≤ 98) := by unfold LIMIT_SWITCH_DEBOUNCE; omega
  have htmo : ¬(HOMING_TIMEOUT_MS < d2 + 2 * (48 + 1) - t0) := by
    unfold HOMING_TIMEOUT_MS; omega
  have htmo2 : ¬(HOMING_TIMEOUT_MS < d2 + 98 - t0) := by unfold HOMING_TIMEOUT_MS; omega
  simp [sysTick, checkLimitSwitches, leftSwitchStep, rightSwitchStep, monTick, processLimit,
    commandStep, homingStep, updateHomingSequence, updateMotionStatus, autoHomeStep,
    limitActivationEffects, snapF, snapG, runCtrl, monIdle, monPending,
    AxisState.step, AxisState.isRunning, AxisState.applyCalls, AxisState.applyCall,
    AxisState.moveTo, AxisState.forceStop, AxisState.getCurrentPosition, AxisState.move,
    BACKOFF_STEPS, h1, h4, hpinL, hpinL2, hpinR, hpinR2, hdz, hcf, hcf2, hcf3, htmo, htmo2]
  try omega

theorem boundGH (L R : Int) (t0 ph d2 : Nat) (hL : -90000 ≤ L) (hLR : L + 106 ≤ R)
    (hd2 : 1 ≤ d2) (htd : d2 ≤ t0 + 85000) (ht0 : t0 ≤ d2) :
    sysTick L R none (snapG L t0 ph d2) = snapH L t0 (d2 + 100) := by
  have h1 : (L : Int) + 50 < L + 100 := by omega
  have h3 : ¬((L : Int) + 50 + 1 = L + 100) := by omega
  have h5 : ¬((L : Int) + 51 = L + 100) := by omega
  have hpinL : ¬((L : Int) + 50 + 1 ≤ L) := by omega
  have hpinL2 : ¬((L : Int) + 51 ≤ L) := by omega
  have hpinR : ¬(R ≤ (L : Int) + 50 + 1) := by omega
  have hpinR2 : ¬(R ≤ (L : Int) + 51) := by omega
  have hdz : ¬(d2 = 0) := by omega
  have hcf : LIMIT_SWITCH_DEBOUNCE ≤ d2 + 100 - d2 := by unfold LIMIT_SWITCH_DEBOUNCE; omega
  have hcf2 : LIMIT_SWITCH_DEBOUNCE ≤ 100 := by unfold LIMIT_SWITCH_DEBOUNCE; omega
  have htmo : ¬(HOMING_TIMEOUT_MS < d2 + 100 - t0) := by unfold HOMING_TIMEOUT_MS; omega
  simp [sysTick, checkLimitSwitches, leftSwitchStep, rightSwitchStep, monTick, processLimit,
    commandStep, homingStep, updateHomingSequence, updateMotionStatus, autoHomeStep,
    limitActivationEffects, snapG, snapH, runCtrl, monIdle, monPending,
    AxisState.step, AxisState.isRunning, AxisState.applyCalls, AxisState.applyCall,
    AxisState.moveTo, AxisState.forceStop, AxisState.getCurrentPosition, AxisState.move,
    AxisState.setCurrentPositionZero, BACKOFF_STEPS, POSITION_MARGIN,
    h1, h3, h5, hpinL, hpinL2, hpinR, hpinR2, hdz, hcf, hcf2, htmo]
  try omega

theorem boundHI (L R : Int) (t0 ph2 : Nat) (hL : -90000 ≤ L) (hLR : L + 106 ≤ R)
    (hph2 : 1 ≤ ph2) (htd : ph2 ≤ t0 + 21000) (ht0 : t0 ≤ ph2) :
    sysTick L R none (snapH L t0 ph2) = snapI L t0 ph2 1 := by
  have h1 : (L : Int) + 51 < L + 51 + 100000 := by omega
  have h3 : ¬((L : Int) + 51 + 1 = L + 51 + 100000) := by omega
  have hpinL : ¬((L : Int) + 51 + 1 ≤ L) := by omega
  have hpinL2 : ¬((L : Int) + 52 ≤ L) := by omega
  have hpinR : ¬(R ≤ (L : Int) + 51 + 1) := by omega
  have hpinR2 : ¬(R ≤ (L : Int) + 52) := by omega
  have htmo : ¬(HOMING_TIMEOUT_MS < ph2 + 2 - t0) := by unfold HOMING_TIMEOUT_MS; omega
  have htmo2 : ¬(HOMING_TIMEOUT_MS < ph2 + 2 - ph2) := by unfold HOMING_TIMEOUT_MS; omega
  have htmo3 : ¬(HOMING_TIMEOUT_MS < 2) := by unfold HOMING_TIMEOUT_MS; omega
  simp [sysTick, checkLimitSwitches, leftSwitchStep, rightSwitchStep, monTick, processLimit,
    commandStep, homingStep, updateHomingSequence, updateMotionStatus, autoHomeStep,
    limitActivationEffects, snapH, snapI, runCtrl, monIdle,
    AxisState.step, AxisState.isRunning, AxisState.applyCalls, AxisState.applyCall,
    AxisState.moveTo, AxisState.forceStop, AxisState.getCurrentPosition, AxisState.move,
    h1, h3, hpinL, hpinL2, hpinR, hpinR2, htmo, htmo2, htmo3]
  try omega

theorem stepI (L R : Int) (t0 ph2 : Nat) (j : Nat) (hj : (j : Int) < R - L - 52)
    (hj2 : j ≤ 10000) (hL : -90000 ≤ L) (hLR : L + 106 ≤ R)
    (hph2 : 1 ≤ ph2) (htd : ph2 ≤ t0 + 21000) (ht0 : t0 ≤ ph2) :
    sysTick L R none (snapI L t0 ph2 j) = snapI L t0 ph2 (j + 1) := by
  have h1 : (L : Int) + 51 + ↑j < L + 51 + 100000 := by omega
  have h3 : ¬((L : Int) + 51 + ↑j + 1 = L + 51 + 100000) := by omega
  have hpinL : ¬((L : Int) + 51 + ↑j + 1 ≤ L) := by omega
  have hpinL2 : ¬((L : Int) + 52 + ↑j ≤ L) := by omega
  have hpinR : ¬(R ≤ (L : Int) + 51 + ↑j + 1) := by omega
  have hpinR2 : ¬(R ≤ (L : Int) + 52 + ↑j) := by omega
  have htmo : ¬(HOMING_TIMEOUT_MS < ph2 + 2 * (j + 1) - t0) := by
    unfold HOMING_TIMEOUT_MS; omega
  have htmo2 : ¬(HOMING_TIMEOUT_MS < ph2 + 2 * (j + 1) - ph2) := by
    unfold HOMING_TIMEOUT_MS; omega
  have htmo3 : ¬(HOMING_TIMEOUT_MS < 2 * (j + 1)) := by unfold HOMING_TIMEOUT_MS; omega
  simp [sysTick, checkLimitSwitches, leftSwitchStep, rightSwitchStep, monTick, processLimit,
    commandStep, homingStep, updateHomingSequence, updateMotionStatus, autoHomeStep,
    limitActivationEffects, snapI, runCtrl, monIdle,
    AxisState.step, AxisState.isRunning, AxisState.applyCalls, AxisState.applyCall,
    AxisState.moveTo, AxisState.forceStop, AxisState.getCurrentPosition, AxisState.move,
    h1, h3, hpinL, hpinL2, hpinR, hpinR2, htmo, htmo2, htmo3]
  try omega

theorem boundIJ (L R : Int) (t0 ph2 jm : Nat) (hjm : (jm : Int) = R - L - 52)
    (hL : -90000 ≤ L) (hLR : L + 106 ≤ R) (hspan : R - L ≤ 10000)
    (hph2 : 1 ≤ ph2) (htd : ph2 ≤ t0 + 21000) (ht0 : t0 ≤ ph2) :
    sysTick L R none (snapI L t0 ph2 jm) = snapJ L R t0 ph2 (ph2 + 2 * (jm + 1)) 0 := by
  have h1 : (L : Int) + 51 + ↑jm < L + 51 + 100000 := by omega
  have h3 : ¬((L : Int) + 51 + ↑jm + 1 = L + 51 + 100000) := by omega
  have h4 : (L : Int) + 51 + ↑jm + 1 = R := by omega
  have hpinL : ¬((L : Int) + 51 + ↑jm + 1 ≤ L) := by omega
  have hpinL2 : ¬(R ≤ L) := by omega
  have hpinR : R ≤ (L : Int) + 51 + ↑jm + 1 := by omega
  have hRR : (R : Int) ≤ R := by omega
  have h5 : ¬((R : Int) = L + 51 + 100000) := by omega
  have htmo : ¬(HOMING_TIMEOUT_MS < ph2 + 2 * (jm + 1) - t0) := by
    unfold HOMING_TIMEOUT_MS; omega
  have htmo2 : ¬(HOMING_TIMEOUT_MS < ph2 + 2 * (jm + 1) - ph2) := by
    unfold HOMING_TIMEOUT_MS; omega
  have htmo3 : ¬(HOMING_TIMEOUT_MS < 2 * (jm + 1)) := by unfold HOMING_TIMEOUT_MS; omega
  simp [sysTick, checkLimitSwitches, leftSwitchStep, rightSwitchStep, monTick, processLimit,
    commandStep, homingStep, updateHomingSequence, updateMotionStatus, autoHomeStep,
    limitActivationEffects, snapI, snapJ, runCtrl, monIdle, monPending,
    AxisState.step, AxisState.isRunning, AxisState.applyCalls, AxisState.applyCall,
    AxisState.moveTo, AxisState.forceStop, AxisState.getCurrentPosition, AxisState.move,
    h1, h3, h4, h5, hpinL, hpinL2, hpinR, hRR, htmo, htmo2, htmo3]
  try omega

end SkullStepper
namespace SkullStepper

theorem stepJ (L R : Int) (t0 ph2 d3 : Nat) (j : Nat) (hj : j < 49) (hd3 : 1 ≤ d3)
    (hL : -90000 ≤ L) (hLR : L + 106 ≤ R) (hspan : R - L ≤ 10000)
    (htd : d3 ≤ t0 + 41000) (ht0 : t0 ≤ d3) (hp2 : ph2 ≤ d3) (hpt : t0 ≤ ph2) :
    sysTick L R none (snapJ L R t0 ph2 d3 j) = snapJ L R t0 ph2 d3 (j + 1) := by
  have h1 : (R : Int) + ↑j < L + 51 + 100000 := by omega
  have h3 : ¬((R : Int) + ↑j + 1 = L + 51 + 100000) := by omega
  have hpinL : ¬((R : Int) + ↑j + 1 ≤ L) := by omega
  have hpinR : R ≤ (R : Int) + ↑j + 1 := by omega
  have hdz : ¬(d3 = 0) := by omega
  have hcf : ¬(100 ≤ d3 + 2 * (j + 1) - d3) := by omega
  have hcf2 : ¬(100 ≤ 2 * (j + 1)) := by omega
  have htmo : ¬(90000 < d3 + 2 * (j + 1) - t0) := by omega
  have htmo2 : ¬(90000 < d3 + 2 * (j + 1) - ph2) := by omega
  simp [sysTick, checkLimitSwitches, leftSwitchStep, rightSwitchStep, monTick, processLimit,
    commandStep, homingStep, updateHomingSequence, updateMotionStatus, autoHomeStep,
    limitActivationEffects, snapJ, runCtrl, monIdle, monPending,
    AxisState.step, AxisState.isRunning, AxisState.applyCalls, AxisState.applyCall,
    AxisState.moveTo, AxisState.forceStop, AxisState.getCurrentPosition, AxisState.move,
    LIMIT_SWITCH_DEBOUNCE, HOMING_TIMEOUT_MS,
    h1, h3, hpinL, hpinR, hdz, hcf, hcf2, htmo, htmo2]
  try omega

theorem boundJK (L R : Int) (t0 ph2 d3 : Nat) (hd3 : 1 ≤ d3)
    (hL : -90000 ≤ L) (hLR : L + 106 ≤ R) (hspan : R - L ≤ 10000)
    (htd : d3 ≤ t0 + 41000) (ht0 : t0 ≤ d3) (hp2 : ph2 ≤ d3) (hpt : t0 ≤ ph2) :
    sysTick L R none (snapJ L R t0 ph2 d3 49) = snapK L R t0 (d3 + 100) := by
  have h1 : (R : Int) + 49 < L + 51 + 100000 := by omega
  have h3 : ¬((R : Int) + 49 + 1 = L + 51 + 100000) := by omega
  have h4 : (R : Int) + 49 + 1 = R + 50 := by omega
  have hpinL : ¬((R : Int) + 49 + 1 ≤ L) := by omega
  have hpinL2 : ¬((R : Int) + 50 ≤ L) := by omega
  have hpinR : R ≤ (R : Int) + 49 + 1 := by omega
  have hpinR2 : R ≤ (R : Int) + 50 := by omega
  have hdz : ¬(d3 = 0) := by omega
  have hdet : (R : Int) + 50 - (L + 51) = R - L - 1 := by omega
  have hcf : 100 ≤ d3 + 2 * (49 + 1) - d3 := by omega
  have hcf2 : (100 : Nat) ≤ 2 * (49 + 1) := by omega
  have htmo : ¬(90000 < d3 + 2 * (49 + 1) - t0) := by omega
  have htmo2 : ¬(90000 < d3 + 100 - t0) := by omega
  have htmo3 : ¬(90000 < d3 + 2 * (49 + 1) - ph2) := by omega
  have htmo4 : ¬(90000 < d3 + 100 - ph2) := by omega
  simp [sysTick, checkLimitSwitches, leftSwitchStep, rightSwitchStep, monTick, processLimit,
    commandStep, homingStep, updateHomingSequence, updateMotionStatus, autoHomeStep,
    limitActivationEffects, snapJ, snapK, runCtrl, monIdle, monPending, monActive,
    AxisState.step, AxisState.isRunning, AxisState.applyCalls, AxisState.applyCall,
    AxisState.moveTo, AxisState.forceStop, AxisState.getCurrentPosition, AxisState.move,
    LIMIT_SWITCH_DEBOUNCE, HOMING_TIMEOUT_MS,
    h1, h3, h4, hdet, hpinL, hpinL2, hpinR, hpinR2, hdz, hcf, hcf2, htmo, htmo2,
    htmo3, htmo4]
  try omega

theorem boundKM (L R : Int) (t0 ph3 : Nat) (hL : -90000 ≤ L) (hLR : L + 106 ≤ R)
    (hph3 : 1 ≤ ph3) (htd : ph3 ≤ t0 + 41000) (ht0 : t0 ≤ ph3) :
    sysTick L R none (snapK L R t0 ph3) = snapM L R t0 ph3 0 := by
  have hpinL : ¬((R : Int) + 50 ≤ L) := by omega
  have hpinR : R ≤ (R : Int) + 50 := by omega
  have htmo : ¬(HOMING_TIMEOUT_MS < ph3 + 2 - t0) := by unfold HOMING_TIMEOUT_MS; omega
  simp [sysTick, checkLimitSwitches, leftSwitchStep, rightSwitchStep, monTick, processLimit,
    commandStep, homingStep, updateHomingSequence, updateMotionStatus, autoHomeStep,
    limitActivationEffects, snapK, snapM, runCtrl, monIdle, monActive,
    AxisState.step, AxisState.isRunning, AxisState.applyCalls, AxisState.applyCall,
    AxisState.moveTo, AxisState.forceStop, AxisState.getCurrentPosition, AxisState.move,
    BACKOFF_STEPS, hpinL, hpinR, htmo]
  try omega

theorem stepM (L R : Int) (t0 ph3 : Nat) (j : Nat) (hj : j < 49) (hL : -90000 ≤ L)
    (hLR : L + 106 ≤ R) (hph3 : 1 ≤ ph3) (htd : ph3 ≤ t0 + 41000) (ht0 : t0 ≤ ph3) :
    sysTick L R none (snapM L R t0 ph3 j) = snapM L R t0 ph3 (j + 1) := by
  have h1 : ¬((R : Int) + 50 - ↑j < R) := by omega
  have h2 : R < (R : Int) + 50 - ↑j := by omega
  have h3 : ¬((R : Int) + 50 - ↑j - 1 = R) := by omega
  have hpinL : ¬((R : Int) + 50 - ↑j - 1 ≤ L) := by omega
  have hpinR : R ≤ (R : Int) + 50 - ↑j - 1 := by omega
  have htmo : ¬(HOMING_TIMEOUT_MS < ph3 + 4 + 2 * j - t0) := by
    unfold HOMING_TIMEOUT_MS; omega
  simp [sysTick, checkLimitSwitches, leftSwitchStep, rightSwitchStep, monTick, processLimit,
    commandStep, homingStep, updateHomingSequence, updateMotionStatus, autoHomeStep,
    limitActivationEffects, snapM, runCtrl, monIdle, monActive,
    AxisState.step, AxisState.isRunning, AxisState.applyCalls, AxisState.applyCall,
    AxisState.moveTo, AxisState.forceStop, AxisState.getCurrentPosition, AxisState.move,
    BACKOFF_STEPS, h1, h2, h3, hpinL, hpinR, htmo]
  try omega

theorem boundMN (L R : Int) (t0 ph3 : Nat) (hL : -90000 ≤ L) (hLR : L + 106 ≤ R)
    (hph3 : 1 ≤ ph3) (htd : ph3 ≤ t0 + 41000) (ht0 : t0 ≤ ph3) :
    sysTick L R none (snapM L R t0 ph3 49) = snapN L R t0 ph3 := by
  have h1 : ¬((R : Int) + 50 - 49 < R) := by omega
  have h2 : R < (R : Int) + 50 - 49 := by omega
  have h4 : (R : Int) + 50 - 49 - 1 = R := by omega
  have hpinL : ¬((R : Int) ≤ L) := by omega
  have hpinR : (R : Int) ≤ R := by omega
  have htmo : ¬(HOMING_TIMEOUT_MS < ph3 + 4 + 2 * 49 - t0) := by
    unfold HOMING_TIMEOUT_MS; omega
  have htmo2 : ¬(HOMING_TIMEOUT_MS < ph3 + 102 - t0) := by unfold HOMING_TIMEOUT_MS; omega
  simp [sysTick, checkLimitSwitches, leftSwitchStep, rightSwitchStep, monTick, processLimit,
    commandStep, homingStep, updateHomingSequence, updateMotionStatus, autoHomeStep,
    limitActivationEffects, snapM, snapN, runCtrl, monIdle, monActive,
    AxisState.step, AxisState.isRunning, AxisState.applyCalls, AxisState.applyCall,
    AxisState.moveTo, AxisState.forceStop, AxisState.getCurrentPosition, AxisState.move,
    BACKOFF_STEPS, h1, h2, h4, hpinL, hpinR, htmo, htmo2]
  try omega

theorem boundNO (L R : Int) (t0 ph3 : Nat) (hL : -90000 ≤ L) (hLR : L + 106 ≤ R)
    (hph3 : 1 ≤ ph3) (htd : ph3 ≤ t0 + 41000) (ht0 : t0 ≤ ph3) :
    sysTick L R none (snapN L R t0 ph3) = snapO L R t0 ph3 (ph3 + 104) 0 := by
  have h1 : ¬((R : Int) < R - 50) := by omega
  have h2 : (R : Int) - 50 < R := by omega
  have h3 : ¬((R : Int) - 1 = R - 50) := by omega
  have hpinL : ¬((R : Int) - 1 ≤ L) := by omega
  have hpinR : ¬(R ≤ (R : Int) - 1) := by omega
  have htmo : ¬(HOMING_TIMEOUT_MS < ph3 + 104 - t0) := by unfold HOMING_TIMEOUT_MS; omega
  simp [sysTick, checkLimitSwitches, leftSwitchStep, rightSwitchStep, monTick, processLimit,
    commandStep, homingStep, updateHomingSequence, updateMotionStatus, autoHomeStep,
    limitActivationEffects, snapN, snapO, runCtrl, monIdle, monActive, monPending,
    AxisState.step, AxisState.isRunning, AxisState.applyCalls, AxisState.applyCall,
    AxisState.moveTo, AxisState.forceStop, AxisState.getCurrentPosition, AxisState.move,
    BACKOFF_STEPS, h1, h2, h3, hpinL, hpinR, htmo]
  try omega

end SkullStepper
namespace SkullStepper

theorem stepO (L R : Int) (t0 ph3 d4 : Nat) (j : Nat) (hj : j < 48) (hd4 : 1 ≤ d4)
    (hL : -90000 ≤ L) (hLR : L + 106 ≤ R) (hspan : R - L ≤ 10000)
    (htd : d4 ≤ t0 + 42000) (ht0 : t0 ≤ d4) (hp3 : ph3 ≤ d4) (hpt : t0 ≤ ph3) :
    sysTick L R none (snapO L R t0 ph3 d4 j) = snapO L R t0 ph3 d4 (j + 1) := by
  have h1 : ¬((R : Int) - 1 - ↑j < R - 50) := by omega
  have h2 : (R : Int) - 50 < R - 1 - ↑j := by omega
  have h3 : ¬((R : Int) - 1 - ↑j - 1 = R - 50) := by omega
  have hpinL : ¬((R : Int) - 1 - ↑j - 1 ≤ L) := by omega
  have hpinR : ¬(R ≤ (R : Int) - 1 - ↑j - 1) := by omega
  have hdz : ¬(d4 = 0) := by omega
  have hcf : ¬(100 ≤ d4 + 2 * (j + 1) - d4) := by omega
  have hcf2 : ¬(100 ≤ 2 * (j + 1)) := by omega
  have htmo : ¬(90000 < d4 + 2 * (j + 1) - t0) := by omega
  simp [sysTick, checkLimitSwitches, leftSwitchStep, rightSwitchStep, monTick, processLimit,
    commandStep, homingStep, updateHomingSequence, updateMotionStatus, autoHomeStep,
    limitActivationEffects, snapO, runCtrl, monIdle, monPending,
    AxisState.step, AxisState.isRunning, AxisState.applyCalls, AxisState.applyCall,
    AxisState.moveTo, AxisState.forceStop, AxisState.getCurrentPosition, AxisState.move,
    LIMIT_SWITCH_DEBOUNCE, HOMING_TIMEOUT_MS,
    h1, h2, h3, hpinL, hpinR, hdz, hcf, hcf2, htmo]
  try omega

theorem boundOP (L R : Int) (t0 ph3 d4 : Nat) (hd4 : 1 ≤ d4)
    (hL : -90000 ≤ L) (hLR : L + 106 ≤ R) (hspan : R - L ≤ 10000)
    (htd : d4 ≤ t0 + 42000) (ht0 : t0 ≤ d4) (hp3 : ph3 ≤ d4) (hpt : t0 ≤ ph3) :
    sysTick L R none (snapO L R t0 ph3 d4 48) = snapP L R t0 ph3 d4 := by
  have h1 : ¬((R : Int) - 1 - 48 < R - 50) := by omega
  have h2 : (R : Int) - 50 < R - 1 - 48 := by omega
  have h4 : (R : Int) - 1 - 48 - 1 = R - 50 := by omega
  have hpinL : ¬((R : Int) - 1 - 48 - 1 ≤ L) := by omega
  have hpinL2 : ¬((R : Int) - 50 ≤ L) := by omega
  have hpinR : ¬(R ≤ (R : Int) - 1 - 48 - 1) := by omega
  have hpinR2 : ¬(R ≤ (R : Int) - 50) := by omega
  have hdz : ¬(d4 = 0) := by omega
  have hcf : ¬(100 ≤ d4 + 2 * (48 + 1) - d4) := by omega
  have hcf2 : ¬(100 ≤ 2 * (48 + 1)) := by omega
  have hcf3 : ¬((100 : Nat) ≤ 98) := by omega
  have htmo : ¬(90000 < d4 + 2 * (48 + 1) - t0) := by omega
  have htmo2 : ¬(90000 < d4 + 98 - t0) := by omega
  simp [sysTick, checkLimitSwitches, leftSwitchStep, rightSwitchStep, monTick, processLimit,
    commandStep, homingStep, updateHomingSequence, updateMotionStatus, autoHomeStep,
    limitActivationEffects, snapO, snapP, runCtrl, monIdle, monPending,
    AxisState.step, AxisState.isRunning, AxisState.applyCalls, AxisState.applyCall,
    AxisState.moveTo, AxisState.forceStop, AxisState.getCurrentPosition, AxisState.move,
    BACKOFF_STEPS, LIMIT_SWITCH_DEBOUNCE, HOMING_TIMEOUT_MS,
    h1, h2, h4, hpinL, hpinL2, hpinR, hpinR2, hdz, hcf, hcf2, hcf3, htmo, htmo2]
  try omega

theorem boundPQ (L R : Int) (t0 ph3 d4 : Nat) (hd4 : 1 ≤ d4)
    (hL : -90000 ≤ L) (hLR : L + 106 ≤ R) (hspan : R - L ≤ 10000)
    (htd : d4 ≤ t0 + 42000) (ht0 : t0 ≤ d4) (hp3 : ph3 ≤ d4) (hpt : t0 ≤ ph3) :
    sysTick L R none (snapP L R t0 ph3 d4) = snapQ L R t0 ph3 (d4 + 102) := by
  have h1 : ¬((R : Int) - 50 < R - 100) := by omega
  have h2 : (R : Int) - 100 < R - 50 := by omega
  have h3 : ¬((R : Int) - 50 - 1 = R - 100) := by omega
  have h5 : (R : Int) - 50 - 1 - (L + 51) - 10 = R - L - 112 := by omega
  have h6 : (R : Int) - 50 - 1 - (L + 51) = R - L - 102 := by omega
  have h7 : (10 : Int) + (R - L - 112) = R - L - 102 := by omega
  have hpinL : ¬((R : Int) - 50 - 1 ≤ L) := by omega
  have hpinL2 : ¬((R : Int) - 51 ≤ L) := by omega
  have hpinR : ¬(R ≤ (R : Int) - 50 - 1) := by omega
  have hpinR2 : ¬(R ≤ (R : Int) - 51) := by omega
  have hdz : ¬(d4 = 0) := by omega
  have hcf : (100 : Nat) ≤ d4 + 100 - d4 := by omega
  have htmo : ¬(90000 < d4 + 100 - t0) := by omega
  have htmo2 : ¬(90000 < d4 + 102 - t0) := by omega
  simp [sysTick, checkLimitSwitches, leftSwitchStep, rightSwitchStep, monTick, processLimit,
    commandStep, homingStep, updateHomingSequence, updateMotionStatus, autoHomeStep,
    limitActivationEffects, snapP, snapQ, runCtrl, monIdle, monPending, homeCenter,
    AxisState.step, AxisState.isRunning, AxisState.applyCalls, AxisState.applyCall,
    AxisState.moveTo, AxisState.forceStop, AxisState.getCurrentPosition, AxisState.move,
    BACKOFF_STEPS, POSITION_MARGIN, LIMIT_SWITCH_DEBOUNCE, HOMING_TIMEOUT_MS,
    h1, h2, h3, h5, h6, h7, hpinL, hpinL2, hpinR, hpinR2, hdz, hcf, htmo, htmo2]
  try omega

end SkullStepper
namespace SkullStepper

theorem homeCenter_bounds (L R : Int) (hLR : L + 106 ≤ R) :
    2 ≤ homeCenter L R ∧ 2 * homeCenter L R ≤ R - L - 102 ∧
      R - L - 102 ≤ 2 * homeCenter L R + 1 := by
  have h : homeCenter L R = (R - L - 102) / 2 := by
    unfold homeCenter
    rw [show (10 : Int) + (R - L - 112) = R - L - 102 by omega, Int.tdiv_eq_ediv] <;> omega
  rw [h]
  omega

theorem boundQS (L R : Int) (t0 ph3 tq : Nat) (hL : -90000 ≤ L) (hLR : L + 106 ≤ R)
    (hspan : R - L ≤ 10000) (htq : 1 ≤ tq) (htd : tq ≤ t0 + 43000) (ht0 : t0 ≤ tq) :
    sysTick L R none (snapQ L R t0 ph3 tq) = snapS L R t0 ph3 tq 1 := by
  obtain ⟨hc1, hc2, hc3⟩ := homeCenter_bounds L R hLR
  have h1 : ¬((R : Int) - 51 < L + 51 + homeCenter L R) := by omega
  have h2 : (L : Int) + 51 + homeCenter L R < R - 51 := by omega
  have h3 : ¬((R : Int) - 51 - 1 = L + 51 + homeCenter L R) := by omega
  have hpinL : ¬((R : Int) - 51 - 1 ≤ L) := by omega
  have hpinL2 : ¬((R : Int) - 52 ≤ L) := by omega
  have hpinR : ¬(R ≤ (R : Int) - 51 - 1) := by omega
  have hpinR2 : ¬(R ≤ (R : Int) - 52) := by omega
  have htmo : ¬(90000 < tq - t0) := by omega
  simp [sysTick, checkLimitSwitches, leftSwitchStep, rightSwitchStep, monTick, processLimit,
    commandStep, homingStep, updateHomingSequence, updateMotionStatus, autoHomeStep,
    limitActivationEffects, snapQ, snapS, runCtrl, monIdle,
    AxisState.step, AxisState.isRunning, AxisState.applyCalls, AxisState.applyCall,
    AxisState.moveTo, AxisState.forceStop, AxisState.getCurrentPosition, AxisState.move,
    HOMING_TIMEOUT_MS,
    h1, h2, h3, hpinL, hpinL2, hpinR, hpinR2, htmo]
  try omega

theorem stepS (L R : Int) (t0 ph3 tq : Nat) (j : Nat) (hj1 : 1 ≤ j)
    (hj : (j : Int) < R - L - 103 - homeCenter L R) (hj2 : j ≤ 10000)
    (hL : -90000 ≤ L) (hLR : L + 106 ≤ R) (hspan : R - L ≤ 10000)
    (htq : 1 ≤ tq) (htd : tq ≤ t0 + 43000) (ht0 : t0 ≤ tq) :
    sysTick L R none (snapS L R t0 ph3 tq j) = snapS L R t0 ph3 tq (j + 1) := by
  obtain ⟨hc1, hc2, hc3⟩ := homeCenter_bounds L R hLR
  have h1 : ¬((R : Int) - 51 - ↑j < L + 51 + homeCenter L R) := by omega
  have h2 : (L : Int) + 51 + homeCenter L R < R - 51 - ↑j := by omega
  have h3 : ¬((R : Int) - 51 - ↑j - 1 = L + 51 + homeCenter L R) := by omega
  have hpinL : ¬((R : Int) - 51 - ↑j - 1 ≤ L) := by omega
  have hpinR : ¬(R ≤ (R : Int) - 51 - ↑j - 1) := by omega
  have htmo : ¬(90000 < tq + 2 * j - t0) := by omega
  simp [sysTick, checkLimitSwitches, leftSwitchStep, rightSwitchStep, monTick, processLimit,
    commandStep, homingStep, updateHomingSequence, updateMotionStatus, autoHomeStep,
    limitActivationEffects, snapS, runCtrl, monIdle,
    AxisState.step, AxisState.isRunning, AxisState.applyCalls, AxisState.applyCall,
    AxisState.moveTo, AxisState.forceStop, AxisState.getCurrentPosition, AxisState.move,
    HOMING_TIMEOUT_MS,
    h1, h2, h3, hpinL, hpinR, htmo]
  try omega

theorem boundSF (L R : Int) (t0 ph3 tq : Nat) (jm : Nat)
    (hjm : (jm : Int) = R - L - 103 - homeCenter L R)
    (hL : -90000 ≤ L) (hLR : L + 106 ≤ R) (hspan : R - L ≤ 10000)
    (htq : 1 ≤ tq) (htd : tq ≤ t0 + 43000) (ht0 : t0 ≤ tq) :
    sysTick L R none (snapS L R t0 ph3 tq jm) = snapFinal L R t0 ph3 (tq + 2 * (jm + 1)) := by
  obtain ⟨hc1, hc2, hc3⟩ := homeCenter_bounds L R hLR
  have h1 : ¬((R : Int) - 51 - ↑jm < L + 51 + homeCenter L R) := by omega
  have h2 : (L : Int) + 51 + homeCenter L R < R - 51 - ↑jm := by omega
  have h4 : (R : Int) - 51 - ↑jm - 1 = L + 51 + homeCenter L R := by omega
  have h5 : (L : Int) + 51 + homeCenter L R - (L + 51) = homeCenter L R := by omega
  have hpinL : ¬((R : Int) - 51 - ↑jm - 1 ≤ L) := by omega
  have hpinL2 : ¬((L : Int) + 51 + homeCenter L R ≤ L) := by omega
  have hpinR : ¬(R ≤ (R : Int) - 51 - ↑jm - 1) := by omega
  have hpinR2 : ¬(R ≤ (L : Int) + 51 + homeCenter L R) := by omega
  have htmo : ¬(90000 < tq + 2 * jm - t0) := by omega
  simp [sysTick, checkLimitSwitches, leftSwitchStep, rightSwitchStep, monTick, processLimit,
    commandStep, homingStep, updateHomingSequence, updateMotionStatus, autoHomeStep,
    limitActivationEffects, snapS, snapFinal, runCtrl, monIdle,
    AxisState.step, AxisState.isRunning, AxisState.applyCalls, AxisState.applyCall,
    AxisState.moveTo, AxisState.forceStop, AxisState.getCurrentPosition, AxisState.move,
    HOMING_TIMEOUT_MS,
    h1, h2, h4, h5, hpinL, hpinL2, hpinR, hpinR2, htmo]
  try omega

end SkullStepper
namespace SkullStepper

theorem sysRun_succ (L R : Int) (n : Nat) (s : SysState) :
    sysRun L R (n + 1) s = sysRun L R n (sysTick L R none s) := rfl

theorem sysRun_add (L R : Int) (m n : Nat) (s : SysState) :
    sysRun L R (m + n) s = sysRun L R n (sysRun L R m s) := by
  induction m generalizing s with
  | zero => rw [Nat.zero_add]; rfl
  | succ m ih =>
    rw [show m + 1 + n = (m + n) + 1 from by omega, sysRun_succ, sysRun_succ, ih]

theorem sysRun_family (L R : Int) (F : Nat → SysState) (i n : Nat)
    (h : ∀ j, i ≤ j → j < i + n → sysTick L R none (F j) = F (j + 1)) :
    sysRun L R n (F i) = F (i + n) := by
  induction n generalizing i with
  | zero => rfl
  | succ n ih =>
    rw [sysRun_succ, h i (Nat.le_refl i) (by omega)]
    rw [ih (i + 1) (fun j hj hj2 => h j (by omega) (by omega))]
    congr 1
    omega

end SkullStepper
namespace SkullStepper

set_option maxHeartbeats 1000000 in
theorem homingRunAssembled (L R p0 : Int) (t0 a e2 jmS : Nat)
    (ha : (a : Int) = p0 - L) (he2 : (e2 : Int) = R - L - 52)
    (hjmS : (jmS : Int) = R - L - 103 - homeCenter L R)
    (hL : -90000 ≤ L) (hLR : L + 106 ≤ R) (hspan : R - L ≤ 10000)
    (hlo : L < p0) (hhi : p0 < R) :
    sysRun L R (a + e2 + jmS + 306) (sysTick L R (some homeCmd) (idleSys p0 t0)) =
      snapFinal L R t0 (t0 + 2 * a + 2 * e2 + 406) (t0 + 2 * a + 2 * e2 + 2 * jmS + 614) := by
  obtain ⟨hc1, hc2, hc3⟩ := homeCenter_bounds L R hLR
  have ha1 : 1 ≤ a := by omega
  have ha2 : a ≤ 10000 := by omega
  have he2a : 54 ≤ e2 := by omega
  have he2b : e2 ≤ 10000 := by omega
  have hjm1 : 1 ≤ jmS := by omega
  have hjm2 : jmS ≤ 10000 := by omega
  have c0 : sysTick L R (some homeCmd) (idleSys p0 t0) = snapA p0 t0 0 :=
    startA L R p0 t0 hL hlo hhi
  have c1 : sysRun L R (a - 1) (sysTick L R (some homeCmd) (idleSys p0 t0)) =
      snapA p0 t0 (a - 1) := by
    rw [c0]
    have h := sysRun_family L R (snapA p0 t0) 0 (a - 1)
      (fun j hj hj2 => stepA L R p0 t0 j hL (by omega) hhi (by omega))
    simpa using h
  have c2 : sysRun L R (a - 1 + 1) (sysTick L R (some homeCmd) (idleSys p0 t0)) =
      snapB L t0 (t0 + 2 * a) 0 := by
    rw [sysRun_add, c1]
    exact boundAB L R p0 t0 a ha ha1 hL hhi (by omega)
  have c3 : sysRun L R (a - 1 + 1 + 49) (sysTick L R (some homeCmd) (idleSys p0 t0)) =
      snapB L t0 (t0 + 2 * a) 49 := by
    rw [sysRun_add, c2]
    have h := sysRun_family L R (snapB L t0 (t0 + 2 * a)) 0 49
      (fun j hj hj2 => stepB L R t0 (t0 + 2 * a) j (by omega) (by omega) hL (by omega)
        (by omega) (by omega))
    simpa using h
  have c4 : sysRun L R (a - 1 + 1 + 49 + 1) (sysTick L R (some homeCmd) (idleSys p0 t0)) =
      snapC L t0 (t0 + 2 * a + 100) := by
    rw [sysRun_add, c3]
    exact boundBC L R t0 (t0 + 2 * a) (by omega) hL (by omega) (by omega) (by omega)
  have c5 : sysRun L R (a - 1 + 1 + 49 + 1 + 1)
      (sysTick L R (some homeCmd) (idleSys p0 t0)) = snapD L t0 (t0 + 2 * a + 100) 0 := by
    rw [sysRun_add, c4]
    exact boundCD L R t0 (t0 + 2 * a + 100) hL (by omega) (by omega) (by omega) (by omega)
  have c6 : sysRun L R (a - 1 + 1 + 49 + 1 + 1 + 49)
      (sysTick L R (some homeCmd) (idleSys p0 t0)) = snapD L t0 (t0 + 2 * a + 100) 49 := by
    rw [sysRun_add, c5]
    have h := sysRun_family L R (snapD L t0 (t0 + 2 * a + 100)) 0 49
      (fun j hj hj2 => stepD L R t0 (t0 + 2 * a + 100) j (by omega) hL (by omega)
        (by omega) (by omega) (by omega))
    simpa using h
  have c7 : sysRun L R (a - 1 + 1 + 49 + 1 + 1 + 49 + 1)
      (sysTick L R (some homeCmd) (idleSys p0 t0)) = snapE L t0 (t0 + 2 * a + 100) := by
    rw [sysRun_add, c6]
    exact boundDE L R t0 (t0 + 2 * a + 100) hL (by omega) (by omega) (by omega) (by omega)
  have c8 : sysRun L R (a - 1 + 1 + 49 + 1 + 1 + 49 + 1 + 1)
      (sysTick L R (some homeCmd) (idleSys p0 t0)) =
      snapF L t0 (t0 + 2 * a + 100) (t0 + 2 * a + 204) 0 := by
    rw [sysRun_add, c7]
    have h := boundEF L R t0 (t0 + 2 * a + 100) hL (by omega) (by omega) (by omega)
      (by omega)
    rw [show t0 + 2 * a + 100 + 104 = t0 + 2 * a + 204 from by omega] at h
    exact h
  have c9 : sysRun L R (a - 1 + 1 + 49 + 1 + 1 + 49 + 1 + 1 + 48)
      (sysTick L R (some homeCmd) (idleSys p0 t0)) =
      snapF L t0 (t0 + 2 * a + 100) (t0 + 2 * a + 204) 48 := by
    rw [sysRun_add, c8]
    have h := sysRun_family L R (snapF L t0 (t0 + 2 * a + 100) (t0 + 2 * a + 204)) 0 48
      (fun j hj hj2 => stepF L R t0 (t0 + 2 * a + 100) (t0 + 2 * a + 204) j (by omega) hL
        (by omega) (by omega) (by omega) (by omega))
    simpa using h
  have c10 : sysRun L R (a - 1 + 1 + 49 + 1 + 1 + 49 + 1 + 1 + 48 + 1)
      (sysTick L R (some homeCmd) (idleSys p0 t0)) =
      snapG L t0 (t0 + 2 * a + 100) (t0 + 2 * a + 204) := by
    rw [sysRun_add, c9]
    exact boundFG L R t0 (t0 + 2 * a + 100) (t0 + 2 * a + 204) hL (by omega) (by omega)
      (by omega) (by omega)
  have c11 : sysRun L R (a - 1 + 1 + 49 + 1 + 1 + 49 + 1 + 1 + 48 + 1 + 1)
      (sysTick L R (some homeCmd) (idleSys p0 t0)) = snapH L t0 (t0 + 2 * a + 304) := by
    rw [sysRun_add, c10]
    have h := boundGH L R t0 (t0 + 2 * a + 100) (t0 + 2 * a + 204) hL hLR (by omega)
      (by omega) (by omega)
    rw [show t0 + 2 * a + 204 + 100 = t0 + 2 * a + 304 from by omega] at h
    exact h
  have c12 : sysRun L R (a - 1 + 1 + 49 + 1 + 1 + 49 + 1 + 1 + 48 + 1 + 1 + 1)
      (sysTick L R (some homeCmd) (idleSys p0 t0)) = snapI L t0 (t0 + 2 * a + 304) 1 := by
    rw [sysRun_add, c11]
    exact boundHI L R t0 (t0 + 2 * a + 304) hL hLR (by omega) (by omega) (by omega)
  have c13 : sysRun L R (a - 1 + 1 + 49 + 1 + 1 + 49 + 1 + 1 + 48 + 1 + 1 + 1 + (e2 - 1))
      (sysTick L R (some homeCmd) (idleSys p0 t0)) = snapI L t0 (t0 + 2 * a + 304) e2 := by
    rw [sysRun_add, c12]
    have h := sysRun_family L R (snapI L t0 (t0 + 2 * a + 304)) 1 (e2 - 1)
      (fun j hj hj2 => stepI L R t0 (t0 + 2 * a + 304) j (by omega) (by omega) hL hLR
        (by omega) (by omega) (by omega))
    rw [show 1 + (e2 - 1) = e2 from by omega] at h
    exact h
  have c14 : sysRun L R
      (a - 1 + 1 + 49 + 1 + 1 + 49 + 1 + 1 + 48 + 1 + 1 + 1 + (e2 - 1) + 1)
      (sysTick L R (some homeCmd) (idleSys p0 t0)) =
      snapJ L R t0 (t0 + 2 * a + 304) (t0 + 2 * a + 2 * e2 + 306) 0 := by
    rw [sysRun_add, c13]
    have h := boundIJ L R t0 (t0 + 2 * a + 304) e2 he2 hL hLR hspan (by omega) (by omega)
      (by omega)
    rw [show t0 + 2 * a + 304 + 2 * (e2 + 1) = t0 + 2 * a + 2 * e2 + 306 from by omega] at h
    exact h
  have c15 : sysRun L R
      (a - 1 + 1 + 49 + 1 + 1 + 49 + 1 + 1 + 48 + 1 + 1 + 1 + (e2 - 1) + 1 + 49)
      (sysTick L R (some homeCmd) (idleSys p0 t0)) =
      snapJ L R t0 (t0 + 2 * a + 304) (t0 + 2 * a + 2 * e2 + 306) 49 := by
    rw [sysRun_add, c14]
    have h := sysRun_family L R (snapJ L R t0 (t0 + 2 * a + 304) (t0 + 2 * a + 2 * e2 + 306))
      0 49
      (fun j hj hj2 => stepJ L R t0 (t0 + 2 * a + 304) (t0 + 2 * a + 2 * e2 + 306) j
        (by omega) (by omega) hL hLR hspan (by omega) (by omega) (by omega) (by omega))
    simpa using h
  have c16 : sysRun L R
      (a - 1 + 1 + 49 + 1 + 1 + 49 + 1 + 1 + 48 + 1 + 1 + 1 + (e2 - 1) + 1 + 49 + 1)
      (sysTick L R (some homeCmd) (idleSys p0 t0)) =
      snapK L R t0 (t0 + 2 * a + 2 * e2 + 406) := by
    rw [sysRun_add, c15]
    have h := boundJK L R t0 (t0 + 2 * a + 304) (t0 + 2 * a + 2 * e2 + 306) (by omega) hL
      hLR hspan (by omega) (by omega) (by omega) (by omega)
    rw [show t0 + 2 * a + 2 * e2 + 306 + 100 = t0 + 2 * a + 2 * e2 + 406 from by omega] at h
    exact h
  have c17 : sysRun L R
      (a - 1 + 1 + 49 + 1 + 1 + 49 + 1 + 1 + 48 + 1 + 1 + 1 + (e2 - 1) + 1 + 49 + 1 + 1)
      (sysTick L R (some homeCmd) (idleSys p0 t0)) =
      snapM L R t0 (t0 + 2 * a + 2 * e2 + 406) 0 := by
    rw [sysRun_add, c16]
    exact boundKM L R t0 (t0 + 2 * a + 2 * e2 + 406) hL hLR (by omega) (by omega) (by omega)
  have c18 : sysRun L R
      (a - 1 + 1 + 49 + 1 + 1 + 49 + 1 + 1 + 48 + 1 + 1 + 1 + (e2 - 1) + 1 + 49 + 1 + 1 +
        49)
      (sysTick L R (some homeCmd) (idleSys p0 t0)) =
      snapM L R t0 (t0 + 2 * a + 2 * e2 + 406) 49 := by
    rw [sysRun_add, c17]
    have h := sysRun_family L R (snapM L R t0 (t0 + 2 * a + 2 * e2 + 406)) 0 49
      (fun j hj hj2 => stepM L R t0 (t0 + 2 * a + 2 * e2 + 406) j (by omega) hL hLR
        (by omega) (by omega) (by omega))
    simpa using h
  have c19 : sysRun L R
      (a - 1 + 1 + 49 + 1 + 1 + 49 + 1 + 1 + 48 + 1 + 1 + 1 + (e2 - 1) + 1 + 49 + 1 + 1 +
        49 + 1)
      (sysTick L R (some homeCmd) (idleSys p0 t0)) =
      snapN L R t0 (t0 + 2 * a + 2 * e2 + 406) := by
    rw [sysRun_add, c18]
    exact boundMN L R t0 (t0 + 2 * a + 2 * e2 + 406) hL hLR (by omega) (by omega) (by omega)
  have c20 : sysRun L R
      (a - 1 + 1 + 49 + 1 + 1 + 49 + 1 + 1 + 48 + 1 + 1 + 1 + (e2 - 1) + 1 + 49 + 1 + 1 +
        49 + 1 + 1)
      (sysTick L R (some homeCmd) (idleSys p0 t0)) =
      snapO L R t0 (t0 + 2 * a + 2 * e2 + 406) (t0 + 2 * a + 2 * e2 + 510) 0 := by
    rw [sysRun_add, c19]
    have h := boundNO L R t0 (t0 + 2 * a + 2 * e2 + 406) hL hLR (by omega) (by omega)
      (by omega)
    rw [show t0 + 2 * a + 2 * e2 + 406 + 104 = t0 + 2 * a + 2 * e2 + 510 from by omega] at h
    exact h
  have c21 : sysRun L R
      (a - 1 + 1 + 49 + 1 + 1 + 49 + 1 + 1 + 48 + 1 + 1 + 1 + (e2 - 1) + 1 + 49 + 1 + 1 +
        49 + 1 + 1 + 48)
      (sysTick L R (some homeCmd) (idleSys p0 t0)) =
      snapO L R t0 (t0 + 2 * a + 2 * e2 + 406) (t0 + 2 * a + 2 * e2 + 510) 48 := by
    rw [sysRun_add, c20]
    have h := sysRun_family L R
      (snapO L R t0 (t0 + 2 * a + 2 * e2 + 406) (t0 + 2 * a + 2 * e2 + 510)) 0 48
      (fun j hj hj2 => stepO L R t0 (t0 + 2 * a + 2 * e2 + 406) (t0 + 2 * a + 2 * e2 + 510)
        j (by omega) (by omega) hL hLR hspan (by omega) (by omega) (by omega) (by omega))
    simpa using h
  have c22 : sysRun L R
      (a - 1 + 1 + 49 + 1 + 1 + 49 + 1 + 1 + 48 + 1 + 1 + 1 + (e2 - 1) + 1 + 49 + 1 + 1 +
        49 + 1 + 1 + 48 + 1)
      (sysTick L R (some homeCmd) (idleSys p0 t0)) =
      snapP L R t0 (t0 + 2 * a + 2 * e2 + 406) (t0 + 2 * a + 2 * e2 + 510) := by
    rw [sysRun_add, c21]
    exact boundOP L R t0 (t0 + 2 * a + 2 * e2 + 406) (t0 + 2 * a + 2 * e2 + 510) (by omega)
      hL hLR hspan (by omega) (by omega) (by omega) (by omega)
  have c23 : sysRun L R
      (a - 1 + 1 + 49 + 1 + 1 + 49 + 1 + 1 + 48 + 1 + 1 + 1 + (e2 - 1) + 1 + 49 + 1 + 1 +
        49 + 1 + 1 + 48 + 1 + 1)
      (sysTick L R (some homeCmd) (idleSys p0 t0)) =
      snapQ L R t0 (t0 + 2 * a + 2 * e2 + 406) (t0 + 2 * a + 2 * e2 + 612) := by
    rw [sysRun_add, c22]
    have h := boundPQ L R t0 (t0 + 2 * a + 2 * e2 + 406) (t0 + 2 * a + 2 * e2 + 510)
      (by omega) hL hLR hspan (by omega) (by omega) (by omega) (by omega)
    rw [show t0 + 2 * a + 2 * e2 + 510 + 102 = t0 + 2 * a + 2 * e2 + 612 from by omega] at h
    exact h
  have c24 : sysRun L R
      (a - 1 + 1 + 49 + 1 + 1 + 49 + 1 + 1 + 48 + 1 + 1 + 1 + (e2 - 1) + 1 + 49 + 1 + 1 +
        49 + 1 + 1 + 48 + 1 + 1 + 1)
      (sysTick L R (some homeCmd) (idleSys p0 t0)) =
      snapS L R t0 (t0 + 2 * a + 2 * e2 + 406) (t0 + 2 * a + 2 * e2 + 612) 1 := by
    rw [sysRun_add, c23]
    exact boundQS L R t0 (t0 + 2 * a + 2 * e2 + 406) (t0 + 2 * a + 2 * e2 + 612) hL hLR
      hspan (by omega) (by omega) (by omega)
  have c25 : sysRun L R
      (a - 1 + 1 + 49 + 1 + 1 + 49 + 1 + 1 + 48 + 1 + 1 + 1 + (e2 - 1) + 1 + 49 + 1 + 1 +
        49 + 1 + 1 + 48 + 1 + 1 + 1 + (jmS - 1))
      (sysTick L R (some homeCmd) (idleSys p0 t0)) =
      snapS L R t0 (t0 + 2 * a + 2 * e2 + 406) (t0 + 2 * a + 2 * e2 + 612) jmS := by
    rw [sysRun_add, c24]
    have h := sysRun_family L R
      (snapS L R t0 (t0 + 2 * a + 2 * e2 + 406) (t0 + 2 * a + 2 * e2 + 612)) 1 (jmS - 1)
      (fun j hj hj2 => stepS L R t0 (t0 + 2 * a + 2 * e2 + 406) (t0 + 2 * a + 2 * e2 + 612)
        j (by omega) (by omega) (by omega) hL hLR hspan (by omega) (by omega) (by omega))
    rw [show 1 + (jmS - 1) = jmS from by omega] at h
    exact h
  have c26 : sysRun L R
      (a - 1 + 1 + 49 + 1 + 1 + 49 + 1 + 1 + 48 + 1 + 1 + 1 + (e2 - 1) + 1 + 49 + 1 + 1 +
        49 + 1 + 1 + 48 + 1 + 1 + 1 + (jmS - 1) + 1)
      (sysTick L R (some homeCmd) (idleSys p0 t0)) =
      snapFinal L R t0 (t0 + 2 * a + 2 * e2 + 406) (t0 + 2 * a + 2 * e2 + 2 * jmS + 614) :=
    by
    rw [sysRun_add, c25]
    have h := boundSF L R t0 (t0 + 2 * a + 2 * e2 + 406) (t0 + 2 * a + 2 * e2 + 612) jmS
      hjmS hL hLR hspan (by omega) (by omega) (by omega)
    rw [show t0 + 2 * a + 2 * e2 + 612 + 2 * (jmS + 1) = t0 + 2 * a + 2 * e2 + 2 * jmS + 614
      from by omega] at h
    exact h
  rw [show a + e2 + jmS + 306 =
    a - 1 + 1 + 49 + 1 + 1 + 49 + 1 + 1 + 48 + 1 + 1 + 1 + (e2 - 1) + 1 + 49 + 1 + 1 +
      49 + 1 + 1 + 48 + 1 + 1 + 1 + (jmS - 1) + 1 from by omega]
  exact c26

end SkullStepper
namespace SkullStepper

/-- C5 (corrected): homing determinism. From any start strictly between the
switches at `L < R` (spans up to 10000 steps), the homing run reaches
`COMPLETE` homed with valid limits, and the discovered range depends on `L`
and `R` alone: `minPosition = POSITION_MARGIN`,
`detectedRightLimit = R - L - 1`, and
`maxPosition = (R - L) - 2*BACKOFF_STEPS - POSITION_MARGIN - 2` - two steps
short of the claim's `(R-L) - 2*backoff - margin`, because the 100 ms debounce
confirms each switch release one step past the switch position. -/
theorem homing_range_determinism (L R p0 : Int) (t0 : Nat)
    (hL : -90000 ≤ L) (hLR : L + 106 ≤ R) (hspan : R - L ≤ 10000)
    (hlo : L < p0) (hhi : p0 < R) :
    ∃ n : Nat,
      (sysRun L R n (sysTick L R (some homeCmd) (idleSys p0 t0))).ctrl.homingState =
          HomingState.COMPLETE ∧
        (sysRun L R n (sysTick L R (some homeCmd) (idleSys p0 t0))).ctrl.systemHomed =
          true ∧
        (sysRun L R n
            (sysTick L R (some homeCmd) (idleSys p0 t0))).ctrl.positionLimitsValid =
          true ∧
        (sysRun L R n (sysTick L R (some homeCmd) (idleSys p0 t0))).ctrl.limitFaultActive =
          false ∧
        (sysRun L R n (sysTick L R (some homeCmd) (idleSys p0 t0))).ctrl.minPosition =
          POSITION_MARGIN ∧
        (sysRun L R n (sysTick L R (some homeCmd) (idleSys p0 t0))).ctrl.maxPosition =
          R - L - 2 * BACKOFF_STEPS - POSITION_MARGIN - 2 ∧
        (sysRun L R n
            (sysTick L R (some homeCmd) (idleSys p0 t0))).ctrl.detectedRightLimit =
          R - L - 1 := by
  obtain ⟨hc1, hc2, hc3⟩ := homeCenter_bounds L R hLR
  obtain ⟨a, ha⟩ : ∃ a : Nat, (a : Int) = p0 - L :=
    ⟨(p0 - L).toNat, Int.toNat_of_nonneg (by omega)⟩
  obtain ⟨e2, he2⟩ : ∃ e2 : Nat, (e2 : Int) = R - L - 52 :=
    ⟨(R - L - 52).toNat, Int.toNat_of_nonneg (by omega)⟩
  obtain ⟨jmS, hjmS⟩ : ∃ jmS : Nat, (jmS : Int) = R - L - 103 - homeCenter L R :=
    ⟨(R - L - 103 - homeCenter L R).toNat, Int.toNat_of_nonneg (by omega)⟩
  refine ⟨a + e2 + jmS + 306, ?_⟩
  rw [homingRunAssembled L R p0 t0 a e2 jmS ha he2 hjmS hL hLR hspan hlo hhi]
  refine ⟨rfl, rfl, rfl, rfl, ?_, ?_, rfl⟩
  · simp [snapFinal, POSITION_MARGIN]
  · simp [snapFinal, BACKOFF_STEPS, POSITION_MARGIN]
    omega

/-- Counterexample for C5 as claimed: with switches at 0 and 300 the completed
run records `maxPosition = 188`, not the claimed `300 - 2*50 - 10 = 190`, nor
`detectedRightLimit - backoff - margin`. -/
theorem homing_claim_counterexample :
    sysRun 0 300 752 (sysTick 0 300 (some homeCmd) (idleSys 100 1)) =
      snapFinal 0 300 1 1103 1507 ∧
    (snapFinal 0 300 1 1103 1507).ctrl.homingState = HomingState.COMPLETE ∧
    (snapFinal 0 300 1 1103 1507).ctrl.systemHomed = true ∧
    (snapFinal 0 300 1 1103 1507).ctrl.minPosition = POSITION_MARGIN ∧
    (snapFinal 0 300 1 1103 1507).ctrl.maxPosition = 188 ∧
    ¬((188 : Int) = 300 - 0 - 2 * BACKOFF_STEPS - POSITION_MARGIN) ∧
    ¬((188 : Int) =
        (snapFinal 0 300 1 1103 1507).ctrl.detectedRightLimit - BACKOFF_STEPS -
          POSITION_MARGIN) := by
  refine ⟨?_, by decide, by decide, by decide, by decide, by decide, by decide⟩
  have h := homingRunAssembled 0 300 100 1 100 248 98 (by decide) (by decide) (by decide)
    (by decide) (by decide) (by decide) (by decide) (by decide)
  simpa using h

/-- Witness for C5: the theorem instantiated at switches 0 and 300, start 100. -/
theorem homing_range_determinism_witness :
    ∃ n : Nat,
      (sysRun 0 300 n (sysTick 0 300 (some homeCmd) (idleSys 100 1))).ctrl.homingState =
          HomingState.COMPLETE ∧
        (sysRun 0 300 n (sysTick 0 300 (some homeCmd) (idleSys 100 1))).ctrl.systemHomed =
          true ∧
        (sysRun 0 300 n
            (sysTick 0 300 (some homeCmd) (idleSys 100 1))).ctrl.positionLimitsValid =
          true ∧
        (sysRun 0 300 n
            (sysTick 0 300 (some homeCmd) (idleSys 100 1))).ctrl.limitFaultActive =
          false ∧
        (sysRun 0 300 n (sysTick 0 300 (some homeCmd) (idleSys 100 1))).ctrl.minPosition =
          POSITION_MARGIN ∧
        (sysRun 0 300 n (sysTick 0 300 (some homeCmd) (idleSys 100 1))).ctrl.maxPosition =
          300 - 0 - 2 * BACKOFF_STEPS - POSITION_MARGIN - 2 ∧
        (sysRun 0 300 n
            (sysTick 0 300 (some homeCmd) (idleSys 100 1))).ctrl.detectedRightLimit =
          300 - 0 - 1 :=
  homing_range_determinism 0 300 100 1 (by decide) (by decide) (by decide) (by decide)
    (by decide)

end SkullStepper

namespace SkullStepper

theorem bool_ne_iff (a b : Bool) (h : a ≠ b) : a = !b := by
  cases a <;> cases b <;> simp_all

theorem monTick_skip (m : LimitMon) (pin : Bool) (now : Nat)
    (hl : pin = m.lastPin) (ht : m.triggered = false) :
    monTick m pin now = (m, false) := by
  simp [monTick, hl, ht]

theorem monTick_reset (m : LimitMon) (pin : Bool) (now : Nat)
    (hp : pin ≠ m.lastPin ∨ m.triggered = true) (hs : pin = m.state) :
    monTick m pin now =
      ({ m with debounceStart := 0, triggered := false, lastPin := pin }, false) := by
  obtain ⟨st, ds, tr, lp⟩ := m
  simp only at hp hs ⊢
  cases pin <;> cases st <;> cases tr <;> cases lp <;>
    simp_all [monTick, processLimit]

theorem monTick_start (m : LimitMon) (pin : Bool) (now : Nat)
    (hp : pin ≠ m.lastPin ∨ m.triggered = true) (hs : pin ≠ m.state)
    (hd : m.debounceStart = 0) :
    monTick m pin now =
      ({ m with debounceStart := now, triggered := true, lastPin := pin }, false) := by
  obtain ⟨st, ds, tr, lp⟩ := m
  simp only at hp hs hd ⊢
  cases pin <;> cases st <;> cases tr <;> cases lp <;>
    simp_all [monTick, processLimit]

theorem monTick_wait (m : LimitMon) (pin : Bool) (now : Nat)
    (hp : pin ≠ m.lastPin ∨ m.triggered = true) (hs : pin ≠ m.state)
    (hd : m.debounceStart ≠ 0)
    (htime : now - m.debounceStart < LIMIT_SWITCH_DEBOUNCE) :
    monTick m pin now = ({ m with triggered := true, lastPin := pin }, false) := by
  obtain ⟨st, ds, tr, lp⟩ := m
  simp only at hp hs hd htime ⊢
  cases pin <;> cases st <;> cases tr <;> cases lp <;>
    simp_all [monTick, processLimit, Nat.not_le.mpr htime]

theorem monTick_confirm (m : LimitMon) (pin : Bool) (now : Nat)
    (hp : pin ≠ m.lastPin ∨ m.triggered = true) (hs : pin ≠ m.state)
    (hd : m.debounceStart ≠ 0)
    (htime : LIMIT_SWITCH_DEBOUNCE ≤ now - m.debounceStart) :
    monTick m pin now =
      ({ m with state := pin, debounceStart := 0, triggered := false,
                lastPin := pin }, true) := by
  obtain ⟨st, ds, tr, lp⟩ := m
  simp only at hp hs hd htime ⊢
  cases pin <;> cases st <;> cases tr <;> cases lp <;>
    simp_all [monTick, processLimit]

theorem monTick_confirmed_iff (m : LimitMon) (pin : Bool) (now : Nat) :
    (monTick m pin now).2 = true ↔
      (pin ≠ m.lastPin ∨ m.triggered = true) ∧ pin ≠ m.state ∧
      m.debounceStart ≠ 0 ∧ LIMIT_SWITCH_DEBOUNCE ≤ now - m.debounceStart := by
  constructor
  · intro h
    by_cases hp : pin ≠ m.lastPin ∨ m.triggered = true
    · by_cases hs : pin = m.state
      · rw [monTick_reset m pin now hp hs] at h
        simp at h
      · by_cases hd : m.debounceStart = 0
        · rw [monTick_start m pin now hp hs hd] at h
          simp at h
        · by_cases htime : LIMIT_SWITCH_DEBOUNCE ≤ now - m.debounceStart
          · exact ⟨hp, hs, hd, htime⟩
          · rw [monTick_wait m pin now hp hs hd (by omega)] at h
            simp at h
    · push_neg at hp
      rw [monTick_skip m pin now hp.1 (by simpa using hp.2)] at h
      simp at h
  · intro h
    rw [monTick_confirm m pin now h.1 h.2.1 h.2.2.1 h.2.2.2]

theorem monAt_pending (m0 : LimitMon) (tm : Nat → Nat) (rd : Nat → Bool)
    (hm0 : m0.debounceStart = 0) :
    ∀ k, (monAt m0 tm rd k).debounceStart ≠ 0 →
      (monAt m0 tm rd k).triggered = true ∧
      ∃ j, j < k ∧ tm j = (monAt m0 tm rd k).debounceStart ∧
        ∀ i, j ≤ i → i < k →
          rd i = !(monAt m0 tm rd k).state ∧ confirmedAt m0 tm rd i = false := by
  intro k
  induction k with
  | zero => intro h; exact absurd hm0 h
  | succ k ih =>
    have hstep : monAt m0 tm rd (k + 1) =
        (monTick (monAt m0 tm rd k) (rd k) (tm k)).1 := rfl
    have hcf : confirmedAt m0 tm rd k =
        (monTick (monAt m0 tm rd k) (rd k) (tm k)).2 := rfl
    by_cases hp : rd k ≠ (monAt m0 tm rd k).lastPin ∨ (monAt m0 tm rd k).triggered = true
    · by_cases hs : rd k = (monAt m0 tm rd k).state
      · intro h
        rw [hstep, monTick_reset (monAt m0 tm rd k) (rd k) (tm k) hp hs] at h
        simp at h
      · by_cases hd : (monAt m0 tm rd k).debounceStart = 0
        · intro _
          have hnew : monAt m0 tm rd (k + 1) =
              { monAt m0 tm rd k with
                  debounceStart := tm k
                  triggered := true
                  lastPin := rd k } := by
            rw [hstep, monTick_start (monAt m0 tm rd k) (rd k) (tm k) hp hs hd]
          have hcf0 : confirmedAt m0 tm rd k = false := by
            rw [hcf, monTick_start (monAt m0 tm rd k) (rd k) (tm k) hp hs hd]
          refine ⟨by rw [hnew], k, Nat.lt_succ_self k, by rw [hnew], ?_⟩
          intro i hi1 hi2
          have hik : i = k := by omega
          subst hik
          rw [hnew]
          exact ⟨bool_ne_iff (rd i) (monAt m0 tm rd i).state hs, hcf0⟩
        · by_cases htime : LIMIT_SWITCH_DEBOUNCE ≤ tm k - (monAt m0 tm rd k).debounceStart
          · intro h
            rw [hstep,
              monTick_confirm (monAt m0 tm rd k) (rd k) (tm k) hp hs hd htime] at h
            simp at h
          · intro _
            have hnew : monAt m0 tm rd (k + 1) =
                { monAt m0 tm rd k with
                    triggered := true
                    lastPin := rd k } := by
              rw [hstep,
                monTick_wait (monAt m0 tm rd k) (rd k) (tm k) hp hs hd (by omega)]
            have hcf0 : confirmedAt m0 tm rd k = false := by
              rw [hcf,
                monTick_wait (monAt m0 tm rd k) (rd k) (tm k) hp hs hd (by omega)]
            obtain ⟨htr, j, hj1, hj2, hj3⟩ := ih hd
            refine ⟨by rw [hnew], j, by omega, by rw [hnew]; exact hj2, ?_⟩
            intro i hi1 hi2
            rw [hnew]
            by_cases hik : i = k
            · subst hik
              exact ⟨bool_ne_iff (rd i) (monAt m0 tm rd i).state hs, hcf0⟩
            · exact hj3 i hi1 (by omega)
    · push_neg at hp
      intro h
      have hsame : monAt m0 tm rd (k + 1) = monAt m0 tm rd k := by
        rw [hstep, monTick_skip (monAt m0 tm rd k) (rd k) (tm k) hp.1
          (by simpa using hp.2)]
      rw [hsame] at h
      have := (ih h).1
      rw [this] at hp
      simp at hp

theorem debounce_sound_aux (m0 : LimitMon) (tm : Nat → Nat) (rd : Nat → Bool)
    (hm0 : m0.debounceStart = 0) (k : Nat)
    (h : confirmedAt m0 tm rd k = true) :
    ∃ j, j ≤ k ∧ LIMIT_SWITCH_DEBOUNCE ≤ tm k - tm j ∧
      ∀ i, j ≤ i → i ≤ k → rd i = !(monAt m0 tm rd k).state := by
  have h2 : (monTick (monAt m0 tm rd k) (rd k) (tm k)).2 = true := h
  obtain ⟨hp, hs, hd, htime⟩ :=
    (monTick_confirmed_iff (monAt m0 tm rd k) (rd k) (tm k)).1 h2
  obtain ⟨htr, j, hj1, hj2, hj3⟩ := monAt_pending m0 tm rd hm0 k hd
  refine ⟨j, by omega, by rw [hj2]; exact htime, ?_⟩
  intro i hi1 hi2
  by_cases hik : i = k
  · subst hik
    exact bool_ne_iff (rd i) (monAt m0 tm rd i).state hs
  · exact (hj3 i hi1 (by omega)).1

theorem debounce_separation_aux (m0 : LimitMon) (tm : Nat → Nat) (rd : Nat → Bool)
    (hm0 : m0.debounceStart = 0) (hmono : StrictMono tm)
    (k1 k2 : Nat) (h12 : k1 < k2)
    (h1 : confirmedAt m0 tm rd k1 = true) (h2 : confirmedAt m0 tm rd k2 = true) :
    tm k1 + LIMIT_SWITCH_DEBOUNCE < tm k2 := by
  have h2p : (monTick (monAt m0 tm rd k2) (rd k2) (tm k2)).2 = true := h2
  obtain ⟨hp, hs, hd, htime⟩ :=
    (monTick_confirmed_iff (monAt m0 tm rd k2) (rd k2) (tm k2)).1 h2p
  obtain ⟨htr, j, hj1, hj2, hj3⟩ := monAt_pending m0 tm rd hm0 k2 hd
  have hk1j : k1 < j := by
    by_contra hle
    push_neg at hle
    have := (hj3 k1 hle h12).2
    rw [h1] at this
    simp at this
  have hmj : tm k1 < tm j := hmono hk1j
  rw [← hj2] at htime
  have hld : LIMIT_SWITCH_DEBOUNCE = 100 := rfl
  omega

/-- C7: debounce correctness of the limit-switch monitor (`processLeftLimit` /
`processRightLimit` driven from `checkLimitSwitches`). For any sequence of raw
pin samples, (1) a transition is confirmed at visit `k` only if the raw reading
has differed from the confirmed state at every sample since some visit `j` whose
sample time lies at least `LIMIT_SWITCH_DEBOUNCE` (100 ms) before visit `k`;
(2) two confirmed transitions are always separated by more than the debounce
window, so rapid toggles yield at most one confirmation per window; and (3) the
monitor re-arms after confirming: in the concrete run `tmW`/`rdW` (samples 51 ms
apart, active for three samples then released) the activation is confirmed at
visit 2 and the release at visit 5. -/
theorem debounce_correct (m0 : LimitMon) (tm : Nat → Nat) (rd : Nat → Bool)
    (hm0 : m0.debounceStart = 0) (hmono : StrictMono tm) :
    (∀ k, confirmedAt m0 tm rd k = true →
       ∃ j, j ≤ k ∧ LIMIT_SWITCH_DEBOUNCE ≤ tm k - tm j ∧
         ∀ i, j ≤ i → i ≤ k → rd i = !(monAt m0 tm rd k).state) ∧
    (∀ k1 k2, k1 < k2 → confirmedAt m0 tm rd k1 = true →
       confirmedAt m0 tm rd k2 = true →
       tm k1 + LIMIT_SWITCH_DEBOUNCE < tm k2) ∧
    (confirmedAt (monIdle false) tmW rdW 2 = true ∧
       confirmedAt (monIdle false) tmW rdW 5 = true) := by
  refine ⟨?_, ?_, by decide, by decide⟩
  · intro k hk
    exact debounce_sound_aux m0 tm rd hm0 k hk
  · intro k1 k2 h12 h1 h2
    exact debounce_separation_aux m0 tm rd hm0 hmono k1 k2 h12 h1 h2

/-- Witness for C7: the theorem applied to the concrete re-arm run. -/
theorem debounce_correct_witness :
    confirmedAt (monIdle false) tmW rdW 2 = true ∧
      confirmedAt (monIdle false) tmW rdW 5 = true :=
  (debounce_correct (monIdle false) tmW rdW rfl
    (by intro a b h; simp only [tmW]; omega)).2.2

end SkullStepper

namespace SkullStepper

theorem enqueueAll_results (q : CmdQueue) (cmds : List MotionCommand) :
    (q.enqueueAll cmds).2 = (List.range cmds.length).map
      (fun i => decide (q.items.length + i < MOTION_QUEUE_CAPACITY)) := by
  induction cmds generalizing q with
  | nil => rfl
  | cons c rest ih =>
    simp only [CmdQueue.enqueueAll, List.length_cons, List.range_succ_eq_map,
      List.map_cons, List.map_map]
    by_cases hf : q.items.length ≥ MOTION_QUEUE_CAPACITY
    · have he : q.enqueue c = (q, false) := by
        simp [CmdQueue.enqueue, hf]
      rw [he]
      congr 1
      · have h1 : ¬ q.items.length + 0 < MOTION_QUEUE_CAPACITY := by omega
        simp [h1]
        omega
      · rw [ih q]
        apply List.map_congr_left
        intro i _
        simp only [Function.comp]
        have h1 : ¬ q.items.length + i < MOTION_QUEUE_CAPACITY := by omega
        have h2 : ¬ q.items.length + (i + 1) < MOTION_QUEUE_CAPACITY := by omega
        simp [h1, h2]
    · have he : q.enqueue c = ({ items := q.items ++ [c] }, true) := by
        simp [CmdQueue.enqueue, hf]
      rw [he]
      have hlt : q.items.length < MOTION_QUEUE_CAPACITY := by omega
      congr 1
      · simp [hlt]
      · rw [ih]
        apply List.map_congr_left
        intro i _
        simp only [Function.comp, List.length_append, List.length_cons,
          List.length_nil]
        have h3 : q.items.length + 0 + 1 + i = q.items.length + (i + 1) := by omega
        rw [h3]

theorem taskDrain_fifo (env : CallEnv) (s : CtrlState) (q : CmdQueue) (n : Nat) :
    taskDrainRun env s q n = q.items.take n := by
  induction n generalizing s q with
  | zero => rfl
  | succ n ih =>
    match hq : q.items with
    | [] =>
      simp only [taskDrainRun, CmdQueue.receive, hq, List.take_nil]
    | c :: rest =>
      simp only [taskDrainRun, CmdQueue.receive, hq, List.take_succ_cons]
      rw [ih]

/-- C8: the motion command queue is a bounded FIFO of capacity
`MOTION_QUEUE_CAPACITY = 10` (spec-modelled queue over the out-of-repo FreeRTOS
primitive): a batch of non-blocking sends succeeds exactly while the queue holds
fewer than 10 items, so with a paused consumer the first 10 of 11 enqueues into
an empty queue succeed and the 11th returns false; and the motion task receives
at most one command per 2 ms control tick, executing the first `n` enqueued
commands in strict FIFO order over `n` ticks. -/
theorem queue_capacity_fifo :
    (∀ (q : CmdQueue) (cmds : List MotionCommand),
       (q.enqueueAll cmds).2 = (List.range cmds.length).map
         (fun i => decide (q.items.length + i < MOTION_QUEUE_CAPACITY))) ∧
    (∀ (env : CallEnv) (s : CtrlState) (q : CmdQueue) (n : Nat),
       taskDrainRun env s q n = q.items.take n) ∧
    (CmdQueue.enqueueAll { items := [] } (List.replicate 11 homeCmd)).2 =
       List.replicate 10 true ++ [false] :=
  ⟨enqueueAll_results, taskDrain_fifo, by decide⟩

end SkullStepper

namespace SkullStepper

/-- C1 (corrected): the fault latch gates the four motion-parameter commands -
while `g_limitFaultActive` is latched, every `MOVE_ABSOLUTE`, `MOVE_RELATIVE`,
`SET_SPEED` and `SET_ACCELERATION` is rejected with no driver call and the
latch preserved. But the latch is not cleared only by a successful homing
completion: a control tick that clears it either ends with homing `COMPLETE`
and the system homed, or is the auto-home service path, which clears the latch
while consuming a pending auto-home request before any homing cycle has
completed (the system still unhomed). -/
theorem fault_latch_behavior :
    (∀ (env : CallEnv) (s : CtrlState) (cmd : MotionCommand),
       s.limitFaultActive = true →
       (cmd.type = CommandType.MOVE_ABSOLUTE ∨ cmd.type = CommandType.MOVE_RELATIVE ∨
        cmd.type = CommandType.SET_SPEED ∨ cmd.type = CommandType.SET_ACCELERATION) →
       (processMotionCommand env s cmd).success = false ∧
       (processMotionCommand env s cmd).calls = [] ∧
       (processMotionCommand env s cmd).state.limitFaultActive = true) ∧
    (∀ (L R : Int) (cmd? : Option MotionCommand) (s : SysState),
       s.ctrl.limitFaultActive = true →
       (sysTick L R cmd? s).ctrl.limitFaultActive = false →
       ((sysTick L R cmd? s).ctrl.homingState = HomingState.COMPLETE ∧
        (sysTick L R cmd? s).ctrl.systemHomed = true) ∨
       ((sysTick L R cmd? s).ctrl.systemHomed = false ∧
        s.ctrl.autoHomeRequested = true ∧
        (sysTick L R cmd? s).ctrl.autoHomeRequested = false)) :=
  ⟨fun env s cmd hf ht => faultLatch_guard env s cmd hf ht,
   fun L R cmd? s hf h => sysTick_fault_clear L R cmd? s hf h⟩

/-- Witness for C1: the latched sample state rejects `SET_SPEED` with no call
and the latch intact. -/
theorem fault_latch_behavior_witness :
    (processMotionCommand ⟨true, true, 3000⟩ faultedSys.ctrl speedCmd).success = false ∧
    (processMotionCommand ⟨true, true, 3000⟩ faultedSys.ctrl speedCmd).calls = [] ∧
    (processMotionCommand ⟨true, true, 3000⟩ faultedSys.ctrl
        speedCmd).state.limitFaultActive = true :=
  fault_latch_behavior.1 ⟨true, true, 3000⟩ faultedSys.ctrl speedCmd (by decide)
    (by decide)

/-- Counterexample for C1 as claimed: in the latched state `SET_SPEED` is
rejected, but one auto-home tick clears the latch while homing has only
reached `FINDING_LEFT` - never `COMPLETE`, the system still unhomed - and
`SET_SPEED` is accepted immediately afterwards. -/
theorem fault_latch_counterexample :
    faultedSys.ctrl.limitFaultActive = true ∧
    (processMotionCommand ⟨true, true, 3000⟩ faultedSys.ctrl speedCmd).success = false ∧
    (sysTick 0 1900 none faultedSys).ctrl.limitFaultActive = false ∧
    (sysTick 0 1900 none faultedSys).ctrl.homingState = HomingState.FINDING_LEFT ∧
    (sysTick 0 1900 none faultedSys).ctrl.systemHomed = false ∧
    (processMotionCommand ⟨true, true, 3002⟩ (sysTick 0 1900 none faultedSys).ctrl
        speedCmd).success = true := by
  decide

/-- Witness for C2: in a fresh unhomed, fault-free controller the two move
commands are rejected with a position-error result while `SET_SPEED` succeeds. -/
theorem notHomed_guard_witness :
    (processMotionCommand ⟨true, true, 0⟩ unhomedCtrl
        { moveCmd with type := CommandType.MOVE_RELATIVE } =
      ⟨{ unhomedCtrl with safetyState := SafetyState.POSITION_ERROR }, false, []⟩) ∧
    (processMotionCommand ⟨true, true, 0⟩ unhomedCtrl speedCmd).success = true :=
  ⟨(notHomed_guard ⟨true, true, 0⟩ unhomedCtrl
      { moveCmd with type := CommandType.MOVE_RELATIVE } rfl rfl (by decide)
      (by decide)).1 (Or.inr rfl),
   (notHomed_guard ⟨true, true, 0⟩ unhomedCtrl speedCmd rfl rfl (by decide)
      (by decide)).2.1 rfl⟩

/-- Counterexample for C2 as claimed: before any homing, with no fault latched,
`SET_SPEED` and `SET_ACCELERATION` are accepted (returning success and issuing
their driver calls), not rejected as not-homed. -/
theorem notHomed_counterexample :
    unhomedCtrl.systemHomed = false ∧
    unhomedCtrl.limitFaultActive = false ∧
    processMotionCommand ⟨true, true, 0⟩ unhomedCtrl speedCmd =
      ⟨{ unhomedCtrl with currentProfile :=
            { unhomedCtrl.currentProfile with maxSpeed := 2000 } },
        true, [DriverCall.setSpeedInHz 2000]⟩ ∧
    processMotionCommand ⟨true, true, 0⟩ unhomedCtrl accelCmd =
      ⟨{ unhomedCtrl with currentProfile :=
            { unhomedCtrl.currentProfile with
                acceleration := 2500
                deceleration := 2500 } },
        true, [DriverCall.setAcceleration 2500]⟩ := by
  decide

/-- C3: `EMERGENCY_STOP` is always admitted, whatever the fault latch, homed
flag or homing state: the handler issues exactly one `forceStop` driver call
(the immediate hard stop), sets the motion state to `IDLE` and publishes the
`EMERGENCY_STOP` safety state. -/
theorem emergencyStop_always_admitted (env : CallEnv) (s : CtrlState)
    (cmd : MotionCommand) (hinit : env.initialized = true)
    (hmutex : env.mutexAcquired = true)
    (htype : cmd.type = CommandType.EMERGENCY_STOP) :
    processMotionCommand env s cmd =
      ⟨{ s with motionState := MotionState.IDLE,
                safetyState := SafetyState.EMERGENCY_STOP },
        true, [DriverCall.forceStop]⟩ := by
  simp [processMotionCommand, hinit, hmutex, htype]

/-- Witness for C3: `EMERGENCY_STOP` is executed even in the latched, unhomed
sample state. -/
theorem emergencyStop_witness :
    processMotionCommand ⟨true, true, 3000⟩ faultedSys.ctrl estopCmd =
      ⟨{ faultedSys.ctrl with motionState := MotionState.IDLE,
                              safetyState := SafetyState.EMERGENCY_STOP },
        true, [DriverCall.forceStop]⟩ :=
  emergencyStop_always_admitted ⟨true, true, 3000⟩ faultedSys.ctrl estopCmd rfl rfl rfl

/-- C6: a `HOME` command is accepted exactly when the homing machine is in
`IDLE`, `COMPLETE` or `ERROR`; in any non-terminal homing state it is a no-op
rejection returning the state unchanged; and acceptance restarts the cycle
with Idle semantics: homed flag cleared, progress zeroed, the start time set
to the call's clock. -/
theorem home_admission (env : CallEnv) (s : CtrlState) (cmd : MotionCommand)
    (hinit : env.initialized = true) (hmutex : env.mutexAcquired = true)
    (htype : cmd.type = CommandType.HOME) :
    ((processMotionCommand env s cmd).success = true ↔
      (s.homingState = HomingState.IDLE ∨ s.homingState = HomingState.COMPLETE ∨
       s.homingState = HomingState.ERROR)) ∧
    (¬(s.homingState = HomingState.IDLE ∨ s.homingState = HomingState.COMPLETE ∨
       s.homingState = HomingState.ERROR) →
      processMotionCommand env s cmd = ⟨s, false, []⟩) ∧
    ((s.homingState = HomingState.IDLE ∨ s.homingState = HomingState.COMPLETE ∨
      s.homingState = HomingState.ERROR) →
      (processMotionCommand env s cmd).state.systemHomed = false ∧
      (processMotionCommand env s cmd).state.homingProgress = 0 ∧
      (processMotionCommand env s cmd).state.homingStartTime = env.now) := by
  refine ⟨?_, ?_, ?_⟩
  · constructor
    · intro h
      by_contra hn
      simp [processMotionCommand, hinit, hmutex, htype, hn] at h
    · intro h
      simp [processMotionCommand, hinit, hmutex, htype, h]
  · intro hn
    simp [processMotionCommand, hinit, hmutex, htype, hn]
  · intro h
    simp only [processMotionCommand, hinit, hmutex, htype]
    simp only [startHomingSequence]
    split_ifs <;> simp_all

/-- Witness for C6: a fresh idle controller accepts `HOME` and restarts the
cycle unhomed. -/
theorem home_admission_witness :
    (processMotionCommand ⟨true, true, 7⟩ unhomedCtrl homeCmd).success = true ∧
    (processMotionCommand ⟨true, true, 7⟩ unhomedCtrl homeCmd).state.systemHomed =
      false :=
  ⟨(home_admission ⟨true, true, 7⟩ unhomedCtrl homeCmd rfl rfl rfl).1.mpr
      (Or.inl (by decide)),
   ((home_admission ⟨true, true, 7⟩ unhomedCtrl homeCmd rfl rfl rfl).2.2
      (Or.inl (by decide))).1⟩

/-- Witness for C9: the latched state's `SET_SPEED` rejection makes no driver
call and leaves profile, homing state, homed flag and limits unchanged. -/
theorem reject_atomic_witness :
    (processMotionCommand ⟨true, true, 3000⟩ faultedSys.ctrl speedCmd).calls = [] ∧
    (processMotionCommand ⟨true, true, 3000⟩ faultedSys.ctrl
        speedCmd).state.currentProfile = faultedSys.ctrl.currentProfile ∧
    (processMotionCommand ⟨true, true, 3000⟩ faultedSys.ctrl
        speedCmd).state.homingState = faultedSys.ctrl.homingState ∧
    (processMotionCommand ⟨true, true, 3000⟩ faultedSys.ctrl
        speedCmd).state.systemHomed = faultedSys.ctrl.systemHomed ∧
    (processMotionCommand ⟨true, true, 3000⟩ faultedSys.ctrl
        speedCmd).state.minPosition = faultedSys.ctrl.minPosition ∧
    (processMotionCommand ⟨true, true, 3000⟩ faultedSys.ctrl
        speedCmd).state.maxPosition = faultedSys.ctrl.maxPosition ∧
    (processMotionCommand ⟨true, true, 3000⟩ faultedSys.ctrl
        speedCmd).state.positionLimitsValid = faultedSys.ctrl.positionLimitsValid :=
  reject_atomic ⟨true, true, 3000⟩ faultedSys.ctrl speedCmd (by decide)

/-- C10: the live profile's deceleration always equals its acceleration.
Initialization establishes the coupling (with or without a stored
configuration), every `processMotionCommand` step preserves it - so any command
sequence from boot keeps both fields equal - and the `setAcceleration` producer
writes the same value to both fields of the command it builds. -/
theorem decel_equals_accel :
    (∀ (config? : Option SystemConfig) (l r : Bool),
       profileCoupled (initController config? l r)) ∧
    (∀ (env : CallEnv) (config? : Option SystemConfig) (l r : Bool)
       (cmds : List MotionCommand),
       profileCoupled (runCommands env (initController config? l r) cmds)) ∧
    (∀ (p : MotionProfile) (a : Rat) (now : Nat) (cmd : MotionCommand),
       setAccelerationCommand p a now = some cmd →
       cmd.profile.deceleration = cmd.profile.acceleration) :=
  ⟨coupled_init,
   fun env config? l r cmds => coupled_run env _ cmds (coupled_init config? l r),
   fun p a now cmd h => coupled_producer p a now cmd h⟩

/-- Witness for C10: the coupling at boot and on the producer's concrete
command. -/
theorem decel_equals_accel_witness :
    profileCoupled (initController none false false) ∧
    accelCmdSample.profile.deceleration = accelCmdSample.profile.acceleration :=
  ⟨decel_equals_accel.1 none false false,
   decel_equals_accel.2.2 initialProfile 2500 0 accelCmdSample (by decide)⟩

/-- Witness for C4: the homed sample state clamps the out-of-range absolute
move at 5000 into the user range before it reaches the driver. -/
theorem move_clamp_witness :
    (processMotionCommand ⟨true, true, 0⟩ homedCtrl moveCmd).calls =
      [DriverCall.moveTo (constrain (moveBaseTarget homedCtrl moveCmd)
          (constrain sampleConfig.minPosition homedCtrl.minPosition
            homedCtrl.maxPosition)
          (constrain sampleConfig.maxPosition homedCtrl.minPosition
            homedCtrl.maxPosition))] :=
  ((move_clamp ⟨true, true, 0⟩ homedCtrl moveCmd sampleConfig rfl rfl (by decide)
      (by decide) (by decide) (by decide) (by decide) (by decide)
      (Or.inl rfl)).1 rfl).1

end SkullStepper
